import Mathlib

/-!
# AX2550 motor-controller driver: embedding of `src/ax2550.cc`

The driver is embedded as pure functions over an explicit driver state
(`Driver`) and an explicit token source (`Env`).

* Text is `String`; character-level operations go through `String.data`.
* The byte-stream transport and the token listener are external
  collaborators.  Their calls are taken to return normally; what the driver
  asks of the transport is recorded in the trace `Driver.written`, in call
  order.  The errors are the driver's own `THROW` sites and the
  `std::length_error` of the string constructor in `queryEncoder_`.
* Time passes only inside a blocking `wait`.  The token source is a list of
  batches: the n-th wait that really blocks sees the n-th batch, i.e. the
  tokens the listener delivers from the start of that wait until the driver
  runs again.  An exhausted list means silence.
* `double` arguments of `move` are represented by their exact rational value
  (only `fabs`, truncation to a byte and comparison with zero are applied to
  them, all of which are exact).
-/

namespace AX2550

/-! ## Text helpers -/

/-- Substring test on character lists: `test` occurs as a contiguous run in `input`. -/
def containsChars : List Char → List Char → Bool
  | [], test => test.isEmpty
  | c :: cs, test => test.isPrefixOf (c :: cs) || containsChars cs test

/-- The call `boost::algorithm::contains(input, test)`: `test` occurs in `input`; as in
Boost, an empty `test` is contained in every `input`. -/
def contains (input test : String) : Bool :=
  containsChars input.data test.data

/-- The call `s.substr(0,1)`: the first character of `s` as a text, empty when `s` is. -/
def substr01 (s : String) : String :=
  String.mk (s.data.take 1)

/-- The test `s.find_first_of(chars) != npos`: some character of `s` is one of `chars`. -/
def findsFirstOf (s chars : String) : Bool :=
  s.data.any (fun c => chars.data.contains c)

/-- The predicate `SerialListener::exactly(what)` applied to a token. -/
def exactly (what token : String) : Bool :=
  token == what

/-- The predicate `SerialListener::startsWith(pre)` applied to a token. -/
def startsWith (pre token : String) : Bool :=
  pre.data.isPrefixOf token.data

/-- Classifier of the encoder subscription (source lines 235-243). -/
def isAnEncoderMsg (token : String) : Bool :=
  if contains "0123456789abcdefABCDEF" (substr01 token) then true else false

/-- Classifier of the ack/nak subscription (source lines 252-260). -/
def isAckOrNak (token : String) : Bool :=
  if contains token "+" || contains token "-" then true else false

/-! ## Number formatting and scanning (C library) -/

/-- Value of a hexadecimal digit character, `none` for any other character. -/
def hexDigitValue (c : Char) : Option Nat :=
  if '0' ≤ c ∧ c ≤ '9' then some (c.toNat - '0'.toNat)
  else if 'a' ≤ c ∧ c ≤ 'f' then some (c.toNat - 'a'.toNat + 10)
  else if 'A' ≤ c ∧ c ≤ 'F' then some (c.toNat - 'A'.toNat + 10)
  else none

/-- Accumulate the longest run of hexadecimal digits at the front of the text,
starting from `acc`; the flag tells whether a digit has been consumed. -/
def scanHex : List Char → Nat → Bool → Option Nat
  | [], acc, seen => if seen then some acc else none
  | c :: cs, acc, seen =>
    match hexDigitValue c with
    | some v => scanHex cs (16 * acc + v) true
    | none => if seen then some acc else none

/-- Reinterpret the low 32 bits of a number as a two's-complement `signed int`. -/
def toSigned32 (n : Nat) : Int :=
  if n % 2 ^ 32 < 2 ^ 31 then ((n % 2 ^ 32 : Nat) : Int) else ((n % 2 ^ 32 : Nat) : Int) - 2 ^ 32

/-- The call `sscanf(text, "%X", &encoder)` on a `signed int encoder` holding `init`: the
leading run of hexadecimal digits is read as an unsigned number and its low 32 bits are
stored; with no leading digit nothing is stored.  (In `queryEncoder_` the scanned text
starts with the fill character, so the white space, sign and `0x` prefix that `%X` would
skip cannot occur.) -/
def sscanfX (text : String) (init : Int) : Int :=
  match scanHex text.data 0 false with
  | some v => toSigned32 v
  | none => init

/-- Uppercase hexadecimal digit for a value below 16. -/
def upperHexDigit (n : Nat) : Char :=
  if n < 10 then Char.ofNat ('0'.toNat + n) else Char.ofNat ('A'.toNat + (n - 10))

/-- The `printf` conversion `%.2X`: uppercase hexadecimal digits of `n`, most significant
first, left-padded with `0` to at least two digits. -/
def sprintf_02X (n : Nat) : String :=
  let digits := (Nat.toDigits 16 n).map Char.toUpper
  String.mk (List.replicate (2 - digits.length) '0' ++ digits)

/-- The expression `(unsigned char) fabs(x)`: absolute value truncated toward zero, kept
to one byte (256 and above wrap around, as the specification has it). -/
def toUnsignedChar_fabs (x : ℚ) : Nat :=
  (Rat.floor (if x < 0 then -x else x)).toNat % 256

/-- Two-digit uppercase hexadecimal form of a number below 256, as the specification
words it: the digit of the sixteens, then the digit of the units. -/
def hex2 (m : Nat) : String :=
  String.mk [upperHexDigit (m / 16), upperHexDigit (m % 16)]

/-! ## Exceptions -/

/-- Exceptions raised in the driver: the three kinds it throws itself, and the
`std::length_error` of the standard library, which the string constructor on source line
197 raises (its message is the library's and is not modelled). -/
inductive Exception
  | ConnectionException (what : String)
  | SynchronizationException (what : String)
  | CommandFailedException (what : String)
  | length_error
  deriving DecidableEq, Repr

deriving instance DecidableEq for Except

/-! ## Encoder response decoding -/

/-- The subtraction `a - b` on `size_t`, taken as 64 bits wide: below zero it wraps
around. -/
def size_t_sub (a b : Nat) : Nat :=
  (a % 2 ^ 64 + 2 ^ 64 - b % 2 ^ 64) % 2 ^ 64

/-- Bound on the length of a `std::string`: `max_size()` is no more than the largest
pointer difference. -/
def string_max_size : Nat := 2 ^ 63 - 1

/-- The constructor `std::string(count, ch)`: `count` copies of `ch`, or
`std::length_error` when `count` exceeds what a string can hold. -/
def string_fill (count : Nat) (ch : Char) : Except Exception String :=
  if string_max_size < count then .error .length_error
  else .ok (String.mk (List.replicate count ch))

/-- The "Parse the response" block of `queryEncoder_` (source lines 185-202).
`difference` is computed on `size_t`, so for a response of more than 8 characters it
wraps around and the construction of `filler` throws `std::length_error`.  Otherwise the
source, having built `filler`, inserts `fillbyte`, one character, at position 0 of the
response, and scans the result. -/
def queryEncoder_parse (response : String) : Except Exception Int :=
  let fillbyte : Char :=
    if findsFirstOf (substr01 response) "01234567" then '0' else 'F'
  let difference := size_t_sub 8 response.length
  match string_fill difference fillbyte with
  | .error e => .error e
  | .ok _filler =>
    let response := String.mk (fillbyte :: response.data)
    .ok (sscanfX response 0)

/-- Value of a text read as a hexadecimal numeral, most significant digit first (a
character that is no hexadecimal digit counts as zero). -/
def hexNumeral (cs : List Char) : Nat :=
  cs.foldl (fun acc c => 16 * acc + (hexDigitValue c).getD 0) 0

/-- Fill character as the specification words it: `0` when the first digit of the
response is one of 0-7, `F` otherwise. -/
def specFill (response : String) : Char :=
  match response.data.head? with
  | some c => if c ∈ ['0', '1', '2', '3', '4', '5', '6', '7'] then '0' else 'F'
  | none => 'F'

/-- The response left-padded with the fill character to 8 digits, as the specification
words it. -/
def specPadded (response : String) : List Char :=
  List.replicate (8 - response.length) (specFill response) ++ response.data

/-- Decoding as the specification words it: the padded 8 digits read as a two's-complement
32-bit value. -/
def specDecode (response : String) : Int :=
  toSigned32 (hexNumeral (specPadded response))

/-! ## Driver state and token source -/

/-- Parity setting of the transport. -/
inductive Parity
  | parity_none
  | parity_odd
  | parity_even
  deriving DecidableEq, Repr

/-- The transport object `Serial` as the driver configures it. -/
structure Serial where
  port : String
  baudrate : Nat
  parity : Parity
  stopbits : Nat
  bytesize : Nat
  timeout : Nat
  isOpen : Bool
  deriving DecidableEq, Repr

/-- The call `serial.open()`. -/
def Serial.open (s : Serial) : Serial :=
  { s with isOpen := true }

/-- The three buffered subscriptions the driver keeps as members. -/
inductive BufferedFilter
  | encoders_filt
  | ack_nak_filt
  | rc_msg_filter_
  deriving DecidableEq, Repr

/-- State of one `AX2550` object, with the traces of what it asked of its collaborators. -/
structure Driver where
  /-- Stored port identifier. -/
  port_ : String
  /-- Transport handle, `none` for `NULL`. -/
  serial_port_ : Option Serial
  connected_ : Bool
  synched_ : Bool
  /-- Whether `serial_listener_` is delivering tokens. -/
  listening : Bool
  /-- Unconsumed tokens of the encoder subscription, oldest first. -/
  encoders_filt : List String
  /-- Unconsumed tokens of the ack/nak subscription, oldest first. -/
  ack_nak_filt : List String
  /-- Unconsumed tokens of the `:`-prefix subscription, oldest first. -/
  rc_msg_filter_ : List String
  /-- Whether `watch_dog_callback` is set (not `NULL`). -/
  watch_dog_callback : Bool
  /-- Texts passed to the transport's `write`, in call order. -/
  written : List String
  /-- Messages passed to the `info` sink, in call order. -/
  infos : List String
  /-- Messages passed to the `warn` sink, in call order. -/
  warns : List String
  /-- Number of invocations of the user's watchdog callback. -/
  watch_dog_calls : Nat
  deriving DecidableEq, Repr

/-- Token source: one batch of tokens per blocking wait. -/
abbrev Env := List (List String)

/-- Lifecycle state as the specification names it. -/
inductive State
  | Disconnected
  | Connected
  | Synchronized
  deriving DecidableEq, Repr

/-- Lifecycle state read off the two flags. -/
def Driver.state (d : Driver) : State :=
  if d.connected_ then (if d.synched_ then State.Synchronized else State.Connected)
  else State.Disconnected

/-- Member initialisation of the constructor (source lines 16-27), before any connect:
no port, no transport handle, not connected, not synchronized, no watchdog callback. -/
def Driver.init : Driver where
  port_ := ""
  serial_port_ := none
  connected_ := false
  synched_ := false
  listening := false
  encoders_filt := []
  ack_nak_filt := []
  rc_msg_filter_ := []
  watch_dog_callback := false
  written := []
  infos := []
  warns := []
  watch_dog_calls := 0

/-- The call `serial_port_.write(text)`. -/
def Driver.write (d : Driver) (text : String) : Driver :=
  { d with written := d.written ++ [text] }

/-- Unconsumed tokens of a buffered subscription. -/
def Driver.buffer (d : Driver) : BufferedFilter → List String
  | .encoders_filt => d.encoders_filt
  | .ack_nak_filt => d.ack_nak_filt
  | .rc_msg_filter_ => d.rc_msg_filter_

/-- Replace the unconsumed tokens of a buffered subscription. -/
def Driver.setBuffer (d : Driver) (f : BufferedFilter) (q : List String) : Driver :=
  match f with
  | .encoders_filt => { d with encoders_filt := q }
  | .ack_nak_filt => { d with ack_nak_filt := q }
  | .rc_msg_filter_ => { d with rc_msg_filter_ := q }

/-- The call `filter.clear()`. -/
def Driver.clear (d : Driver) (f : BufferedFilter) : Driver :=
  d.setBuffer f []

/-- The call `filter.count()`. -/
def Driver.count (d : Driver) (f : BufferedFilter) : Nat :=
  (d.buffer f).length

/-- Modelled from the spec: the token listener is not part of the source.  A wait returns
zero or one token and an empty result means that none arrived, so the listener hands out
non-empty tokens only, and only while it is listening. -/
def received (listening : Bool) (batch : List String) : List String :=
  if listening then batch.filter (fun token => token ≠ "") else []

/-- Handler of the watchdog subscription (source lines 245-250). -/
def watchDogCallback_ (d : Driver) (_token : String) : Driver :=
  if d.watch_dog_callback then { d with watch_dog_calls := d.watch_dog_calls + 1 } else d

/-- Delivery of one token to the four subscriptions installed by `setupFilters_`
(source lines 262-276), each with its classifier. -/
def dispatch (d : Driver) (token : String) : Driver :=
  let d := if isAnEncoderMsg token then
    { d with encoders_filt := d.encoders_filt ++ [token] } else d
  let d := if exactly "W" token then watchDogCallback_ d token else d
  let d := if isAckOrNak token then
    { d with ack_nak_filt := d.ack_nak_filt ++ [token] } else d
  if startsWith ":" token then
    { d with rc_msg_filter_ := d.rc_msg_filter_ ++ [token] } else d

/-- Delivery of the tokens of one batch, in order. -/
def listen (d : Driver) (batch : List String) : Driver :=
  (received d.listening batch).foldl dispatch d

/-- Modelled from the spec: the bounded wait of the token listener, which is not part of
the source, here `filter.wait(ms)` on a buffered member subscription.  An unconsumed token
is returned at once; otherwise the wait blocks for one batch and returns the first token
the subscription got, or the empty text. -/
def wait (d : Driver) (env : Env) (f : BufferedFilter) : String × Driver × Env :=
  match d.buffer f with
  | token :: rest => (token, d.setBuffer f rest, env)
  | [] =>
    let d := listen d (env.headD [])
    match d.buffer f with
    | token :: rest => (token, d.setBuffer f rest, env.tail)
    | [] => ("", d, env.tail)

/-- Modelled from the spec: the bounded wait of the token listener on a subscription
created for the occasion (the echo filter of `issueCommand`, the `OK` filter of `sync_`).
It blocks for one batch and returns the first token of the batch that satisfies the
predicate, or the empty text. -/
def waitFor (d : Driver) (env : Env) (p : String → Bool) : String × Driver × Env :=
  (((received d.listening (env.headD [])).find? p).getD "", listen d (env.headD []), env.tail)

/-- The first ack/nak token the listener delivers out of a batch, if any. -/
def nextAckNak (listening : Bool) (batch : List String) : Option String :=
  ((received listening batch).filter isAckOrNak).head?

/-- Outcome of a throwing operation: the driver and token source it leaves behind, and
either the returned value or the exception. -/
structure Outcome (α : Type) where
  driver : Driver
  env : Env
  result : Except Exception α

/-! ## Operations -/

/-- Install the four subscriptions (source lines 262-276): each buffered one starts empty. -/
def setupFilters_ (d : Driver) : Driver :=
  { d with encoders_filt := [], ack_nak_filt := [], rc_msg_filter_ := [] }

/-- The method `AX2550::disconnect` (source lines 68-76). -/
def disconnect (d : Driver) : Driver :=
  let d := { d with connected_ := false }
  let d := { d with listening := false }
  match d.serial_port_ with
  | some _ => { d with serial_port_ := none }
  | none => d

/-- The method `AX2550::issueCommand` (source lines 78-90): returns the success flag, the
caller's `fail_why` after the call, and the driver and token source left behind. -/
def issueCommand (d : Driver) (env : Env) (command : String) (fail_why : String) :
    Bool × String × Driver × Env :=
  let d := d.write command
  let (echo, d, env) := waitFor d env (exactly command)
  if echo.isEmpty then (false, "failed to receive an echo", d, env)
  else (true, fail_why, d, env)

/-- Speed frame built by `move` (source lines 100-106). -/
def speedFrame (speed : ℚ) : String :=
  let speed_hex := toUnsignedChar_fabs speed
  if speed < 0 then "!a" ++ sprintf_02X speed_hex ++ "\r"
  else "!A" ++ sprintf_02X speed_hex ++ "\r"

/-- Direction frame built by `move` (source lines 123-129). -/
def directionFrame (direction : ℚ) : String :=
  let direction_hex := toUnsignedChar_fabs direction
  if direction < 0 then "!b" ++ sprintf_02X direction_hex ++ "\r"
  else "!B" ++ sprintf_02X direction_hex ++ "\r"

/-- The block of `move` that issues one frame and listens for an ack or nak.  The source
has it twice, word for word: lines 107-119 for the speed frame and lines 130-142 for the
direction frame.  Returns `fail_why` as the block leaves it. -/
def move_confirm (d : Driver) (env : Env) (serial_buffer fail_why : String) :
    Outcome String :=
  let (issued, fail_why, d, env) := issueCommand d env serial_buffer fail_why
  if !issued then ⟨d, env, .error (.CommandFailedException fail_why)⟩
  else
    let d := d.clear .ack_nak_filt
    let (result, d, env) := wait d env .ack_nak_filt
    if result ≠ "+" then
      if result = "-" then
        ⟨d, env, .error (.CommandFailedException "nak received, command failed")⟩
      else
        ⟨d, env, .error (.CommandFailedException "did not receive an ack or nak")⟩
    else
      ⟨d, env, .ok fail_why⟩

/-- The method `AX2550::move` (source lines 92-143).  The guard reads the connected flag;
an exception of either block ends the call. -/
def move (d : Driver) (env : Env) (speed direction : ℚ) : Outcome Unit :=
  if !d.connected_ then
    ⟨d, env, .error (.CommandFailedException "must be connected to move")⟩
  else
    match move_confirm d env (speedFrame speed) "" with
    | ⟨d, env, .error e⟩ => ⟨d, env, .error e⟩
    | ⟨d, env, .ok fail_why⟩ =>
      match move_confirm d env (directionFrame direction) fail_why with
      | ⟨d, env, .error e⟩ => ⟨d, env, .error e⟩
      | ⟨d, env, .ok _⟩ => ⟨d, env, .ok ()⟩

/-- The method `AX2550::queryEncoder_` (source lines 174-203): the value the parse block
returns, or the exception it raises, is the outcome of the method. -/
def queryEncoder_ (d : Driver) (env : Env) (cmd : String) : Outcome Int :=
  let (issued, fail_why, d, env) := issueCommand d env cmd ""
  if !issued then ⟨d, env, .error (.CommandFailedException fail_why)⟩
  else
    let (response, d, env) := wait d env .encoders_filt
    if response.isEmpty then
      ⟨d, env, .error (.CommandFailedException ("failed to receive a response from " ++ cmd))⟩
    else
      ⟨d, env, queryEncoder_parse response⟩

/-- What `queryEncoders` leaves behind: besides the driver, the token source and the
exception if any, the values of the caller's two reference arguments after the call. -/
structure EncodersOutcome where
  driver : Driver
  env : Env
  encoder1 : Int
  encoder2 : Int
  result : Except Exception Unit

/-- The method `AX2550::queryEncoders` (source lines 145-172); `encoder1` and `encoder2`
are the caller's variables, passed by reference. -/
def queryEncoders (d : Driver) (env : Env) (encoder1 encoder2 : Int) (relative : Bool) :
    EncodersOutcome :=
  let d := if d.count .encoders_filt ≠ 0 then
    { d with warns := d.warns ++ ["There were " ++ toString (d.count .encoders_filt)
        ++ " orphaned encoder messages in the filter..."] } else d
  let d := d.clear .encoders_filt
  let cmd := if relative then "?q4\r" else "?q0\r"
  match queryEncoder_ d env cmd with
  | ⟨d, env, .error e⟩ => ⟨d, env, encoder1, encoder2, .error e⟩
  | ⟨d, env, .ok value1⟩ =>
    let encoder1 := value1
    let cmd := if relative then "?q5\r" else "?q1\r"
    match queryEncoder_ d env cmd with
    | ⟨d, env, .error e⟩ => ⟨d, env, encoder1, encoder2, .error e⟩
    | ⟨d, env, .ok value2⟩ => ⟨d, env, encoder1, value2, .ok ()⟩

/-- The probe loop of `sync_` (source lines 219-226) with `n` iterations left: returns
`got_ok` and what is left behind. -/
def okProbe : Nat → Driver → Env → Bool × Driver × Env
  | 0, d, env => (false, d, env)
  | n + 1, d, env =>
    let d := d.write "\r"
    let (token, d, env) := waitFor d env (exactly "OK")
    if !token.isEmpty then (true, d, env) else okProbe n d env

/-- The method `AX2550::sync_` (source lines 205-233). -/
def sync_ (d : Driver) (env : Env) : Outcome Unit :=
  if d.synched_ then ⟨d, env, .ok ()⟩
  else
    let d := d.write "%rrrrrr\r"
    let d := d.clear .rc_msg_filter_
    let (rc, d, env) := wait d env .rc_msg_filter_
    if rc.isEmpty then
      ⟨d, env, .error (.SynchronizationException "did not receive an R/C message after reset")⟩
    else
      let (got_ok, d, env) := okProbe 10 d env
      if !got_ok then
        ⟨d, env, .error (.SynchronizationException "failed to get into serial mode")⟩
      else
        let d := { d with synched_ := true }
        let d := { d with infos := d.infos ++ ["Synchronized with the ax2550"] }
        ⟨d, env, .ok ()⟩

/-- The method `AX2550::connect` (source lines 33-66). -/
def connect (d : Driver) (env : Env) (port : String) : Outcome Unit :=
  if d.connected_ then
    ⟨d, env, .error (.ConnectionException "already connected")⟩
  else
    let d := if !port.isEmpty then { d with port_ := port } else d
    if d.port_.isEmpty then
      ⟨d, env, .error (.ConnectionException "serial port name is empty")⟩
    else
      let d := disconnect d
      let d := setupFilters_ d
      let serial : Serial :=
        { port := d.port_, baudrate := 9600, parity := .parity_even, stopbits := 1,
          bytesize := 7, timeout := 250, isOpen := false }
      let d := { d with serial_port_ := some serial }
      let d := { d with serial_port_ := some (Serial.open serial) }
      let d := { d with listening := true }
      let d := { d with connected_ := true }
      sync_ d env

/-- Driver state after a `move_confirm` block whose echo came in batch `b1` and whose
ack/nak wait saw batch `b2`. -/
def afterConfirm (d : Driver) (frame : String) (b1 b2 : List String) : Driver :=
  (listen ((listen (d.write frame) b1).clear .ack_nak_filt) b2).setBuffer .ack_nak_filt
    ((received d.listening b2).filter isAckOrNak).tail

/-- Driver state when the probe loop starts, the reset acknowledgment having come in
batch `b0`. -/
def afterReset (d : Driver) (b0 : List String) : Driver :=
  (listen ((d.write "%rrrrrr\r").clear .rc_msg_filter_) b0).setBuffer .rc_msg_filter_
    ((received d.listening b0).filter (startsWith ":")).tail

/-- Text of the first query of `queryEncoders` (source lines 158-162). -/
def firstQuery (relative : Bool) : String :=
  if relative then "?q4\r" else "?q0\r"

/-- Text of the second query of `queryEncoders` (source lines 166-170). -/
def secondQuery (relative : Bool) : String :=
  if relative then "?q5\r" else "?q1\r"

/-- Driver state after the opening block of `queryEncoders` (source lines 147-155): the
warning about orphaned encoder messages if there are some, then the buffer cleared. -/
def queryEncoders_begin (d : Driver) : Driver :=
  (if d.count .encoders_filt ≠ 0 then
    { d with warns := d.warns ++ ["There were " ++ toString (d.count .encoders_filt)
        ++ " orphaned encoder messages in the filter..."] } else d).clear .encoders_filt

/-- The query `cmd` is echoed in batch `be` and answered in batch `ba`: the listener
delivers the echo while no encoder token arrives with it, and the encoder tokens of `ba`
are exactly the one response `r`, an encoder reading of the wire protocol, that is of at
most 8 characters. -/
def Answered (listening : Bool) (cmd : String) (be ba : List String) (r : String) : Prop :=
  cmd ∈ received listening be ∧
  (received listening be).filter isAnEncoderMsg = [] ∧
  (received listening ba).filter isAnEncoderMsg = [r] ∧
  r.length ≤ 8

/-- Number of characters `move` allocates for a frame (`new char[5]`, source lines 97
and 122). -/
def serial_buffer_size : Nat := 5

/-- Driver state in which `connect` enters the handshake (source lines 39-63): the port
stored, a clean state, the subscriptions installed, the transport configured and opened,
the listener started and the connected flag set. -/
def connect_opened (d : Driver) (port : String) : Driver :=
  let d := if !port.isEmpty then { d with port_ := port } else d
  let d := disconnect d
  let d := setupFilters_ d
  let serial : Serial :=
    { port := d.port_, baudrate := 9600, parity := .parity_even, stopbits := 1,
      bytesize := 7, timeout := 250, isOpen := false }
  let d := { d with serial_port_ := some serial }
  let d := { d with serial_port_ := some (Serial.open serial) }
  let d := { d with listening := true }
  { d with connected_ := true }

/-! ## Lemmas on hexadecimal scanning -/

theorem hexDigitValue_lt (c : Char) (v : Nat) (h : hexDigitValue c = some v) : v < 16 := by
  unfold hexDigitValue at h
  split_ifs at h with h1 h2 h3
  · have := h1.2
    have h9 : c.toNat ≤ '9'.toNat := by exact_mod_cast this
    simp at h
    have : ('9' : Char).toNat = 57 := by decide
    have : ('0' : Char).toNat = 48 := by decide
    omega
  · have := h2.2
    have hf : c.toNat ≤ 'f'.toNat := by exact_mod_cast this
    simp at h
    have : ('f' : Char).toNat = 102 := by decide
    have : ('a' : Char).toNat = 97 := by decide
    omega
  · have := h3.2
    have hf : c.toNat ≤ 'F'.toNat := by exact_mod_cast this
    simp at h
    have : ('F' : Char).toNat = 70 := by decide
    have : ('A' : Char).toNat = 65 := by decide
    omega

theorem hexDigitValue_getD_lt (c : Char) : (hexDigitValue c).getD 0 < 16 := by
  cases h : hexDigitValue c with
  | none => simp
  | some v => simpa using hexDigitValue_lt c v h

theorem scanHex_allHex (cs : List Char) (acc : Nat)
    (h : ∀ x ∈ cs, (hexDigitValue x).isSome = true) :
    scanHex cs acc true
      = some (cs.foldl (fun a c => 16 * a + (hexDigitValue c).getD 0) acc) := by
  induction cs generalizing acc with
  | nil => simp [scanHex]
  | cons c cs ih =>
    have hc := h c (List.mem_cons_self c cs)
    obtain ⟨v, hv⟩ := Option.isSome_iff_exists.mp hc
    have hrest : ∀ x ∈ cs, (hexDigitValue x).isSome = true :=
      fun x hx => h x (List.mem_cons_of_mem c hx)
    simp [scanHex, hv, ih _ hrest]

theorem foldl_hex_lt (cs : List Char) (acc : Nat) :
    cs.foldl (fun a c => 16 * a + (hexDigitValue c).getD 0) acc
      < (acc + 1) * 16 ^ cs.length := by
  induction cs generalizing acc with
  | nil => simp
  | cons c cs ih =>
    have hv := hexDigitValue_getD_lt c
    have h1 := ih (16 * acc + (hexDigitValue c).getD 0)
    simp only [List.foldl_cons, List.length_cons]
    calc _ < (16 * acc + (hexDigitValue c).getD 0 + 1) * 16 ^ cs.length := h1
      _ ≤ (16 * (acc + 1)) * 16 ^ cs.length := by
          apply Nat.mul_le_mul_right; omega
      _ = (acc + 1) * 16 ^ (cs.length + 1) := by ring

theorem hexNumeral_replicate_zero (k : Nat) (cs : List Char) :
    hexNumeral (List.replicate k '0' ++ cs) = hexNumeral cs := by
  unfold hexNumeral
  rw [List.foldl_append]
  congr 1
  induction k with
  | zero => rfl
  | succ k ih =>
    rw [List.replicate_succ, List.foldl_cons]
    have : hexDigitValue '0' = some 0 := by decide
    simpa [this] using ih

theorem toSigned32_range (n : Nat) : -2 ^ 31 ≤ toSigned32 n ∧ toSigned32 n < 2 ^ 31 := by
  unfold toSigned32
  have h := Nat.mod_lt n (show 0 < 2 ^ 32 by norm_num)
  split_ifs with h1 <;> constructor <;> omega

theorem toSigned32_small (n : Nat) (h : n < 2 ^ 31) : toSigned32 n = (n : Int) := by
  unfold toSigned32
  have : n % 2 ^ 32 = n := Nat.mod_eq_of_lt (by omega)
  rw [this, if_pos h]

/-! ## Token delivery in closed form -/

theorem foldl_dispatch_eq (l : List String) (d : Driver) :
    l.foldl dispatch d =
      { d with
        encoders_filt := d.encoders_filt ++ l.filter isAnEncoderMsg
        ack_nak_filt := d.ack_nak_filt ++ l.filter isAckOrNak
        rc_msg_filter_ := d.rc_msg_filter_ ++ l.filter (startsWith ":")
        watch_dog_calls := d.watch_dog_calls
          + (if d.watch_dog_callback then (l.filter (exactly "W")).length else 0) } := by
  induction l generalizing d with
  | nil => cases d; simp
  | cons t l ih =>
    rw [List.foldl_cons, ih]
    cases d
    simp only [dispatch, watchDogCallback_, List.filter_cons]
    split_ifs <;> simp <;> omega

theorem listen_eq (d : Driver) (batch : List String) :
    listen d batch =
      { d with
        encoders_filt := d.encoders_filt ++ (received d.listening batch).filter isAnEncoderMsg
        ack_nak_filt := d.ack_nak_filt ++ (received d.listening batch).filter isAckOrNak
        rc_msg_filter_ :=
          d.rc_msg_filter_ ++ (received d.listening batch).filter (startsWith ":")
        watch_dog_calls := d.watch_dog_calls
          + (if d.watch_dog_callback then
              ((received d.listening batch).filter (exactly "W")).length else 0) } := by
  unfold listen
  exact foldl_dispatch_eq _ d

theorem received_ne_empty (listening : Bool) (batch : List String) (t : String)
    (h : t ∈ received listening batch) : t ≠ "" := by
  unfold received at h
  split_ifs at h
  · simpa using (List.mem_filter.mp h).2
  · simp at h

/-! ## Frame lemmas: what delivery and buffer operations leave alone -/

@[simp] theorem listen_listening (d : Driver) (b : List String) :
    (listen d b).listening = d.listening := by rw [listen_eq]

@[simp] theorem listen_written (d : Driver) (b : List String) :
    (listen d b).written = d.written := by rw [listen_eq]

@[simp] theorem listen_connected (d : Driver) (b : List String) :
    (listen d b).connected_ = d.connected_ := by rw [listen_eq]

@[simp] theorem listen_synched (d : Driver) (b : List String) :
    (listen d b).synched_ = d.synched_ := by rw [listen_eq]

@[simp] theorem listen_infos (d : Driver) (b : List String) :
    (listen d b).infos = d.infos := by rw [listen_eq]

@[simp] theorem listen_serial_port (d : Driver) (b : List String) :
    (listen d b).serial_port_ = d.serial_port_ := by rw [listen_eq]

@[simp] theorem setBuffer_listening (d : Driver) (f : BufferedFilter) (q : List String) :
    (d.setBuffer f q).listening = d.listening := by cases f <;> rfl

@[simp] theorem setBuffer_written (d : Driver) (f : BufferedFilter) (q : List String) :
    (d.setBuffer f q).written = d.written := by cases f <;> rfl

@[simp] theorem setBuffer_connected (d : Driver) (f : BufferedFilter) (q : List String) :
    (d.setBuffer f q).connected_ = d.connected_ := by cases f <;> rfl

@[simp] theorem setBuffer_synched (d : Driver) (f : BufferedFilter) (q : List String) :
    (d.setBuffer f q).synched_ = d.synched_ := by cases f <;> rfl

@[simp] theorem setBuffer_infos (d : Driver) (f : BufferedFilter) (q : List String) :
    (d.setBuffer f q).infos = d.infos := by cases f <;> rfl

@[simp] theorem setBuffer_serial_port (d : Driver) (f : BufferedFilter) (q : List String) :
    (d.setBuffer f q).serial_port_ = d.serial_port_ := by cases f <;> rfl

@[simp] theorem clear_listening (d : Driver) (f : BufferedFilter) :
    (d.clear f).listening = d.listening := setBuffer_listening d f []

@[simp] theorem clear_written (d : Driver) (f : BufferedFilter) :
    (d.clear f).written = d.written := setBuffer_written d f []

@[simp] theorem clear_connected (d : Driver) (f : BufferedFilter) :
    (d.clear f).connected_ = d.connected_ := setBuffer_connected d f []

@[simp] theorem clear_synched (d : Driver) (f : BufferedFilter) :
    (d.clear f).synched_ = d.synched_ := setBuffer_synched d f []

@[simp] theorem clear_infos (d : Driver) (f : BufferedFilter) :
    (d.clear f).infos = d.infos := setBuffer_infos d f []

@[simp] theorem clear_serial_port (d : Driver) (f : BufferedFilter) :
    (d.clear f).serial_port_ = d.serial_port_ := setBuffer_serial_port d f []

@[simp] theorem write_listening (d : Driver) (t : String) :
    (d.write t).listening = d.listening := rfl

@[simp] theorem write_written (d : Driver) (t : String) :
    (d.write t).written = d.written ++ [t] := rfl

@[simp] theorem write_connected (d : Driver) (t : String) :
    (d.write t).connected_ = d.connected_ := rfl

@[simp] theorem write_synched (d : Driver) (t : String) :
    (d.write t).synched_ = d.synched_ := rfl

@[simp] theorem write_infos (d : Driver) (t : String) :
    (d.write t).infos = d.infos := rfl

@[simp] theorem write_serial_port (d : Driver) (t : String) :
    (d.write t).serial_port_ = d.serial_port_ := rfl

/-! ## Closed forms of the waits -/

theorem issueCommand_eq (d : Driver) (env : Env) (command fail_why : String) :
    issueCommand d env command fail_why =
      if command ∈ received d.listening (env.headD []) then
        (true, fail_why, listen (d.write command) (env.headD []), env.tail)
      else
        (false, "failed to receive an echo", listen (d.write command) (env.headD []),
          env.tail) := by
  simp only [issueCommand, waitFor, Driver.write]
  generalize List.headD env [] = batch
  cases hfind : (received d.listening batch).find? (exactly command) with
  | none =>
    have hnot : command ∉ received d.listening batch := by
      intro hmem
      have := List.find?_eq_none.mp hfind command hmem
      simp [exactly] at this
    have hemp : ("" : String).isEmpty = true := by decide
    simp only [Option.getD_none, hemp, if_true, if_neg hnot]
  | some t =>
    have hp : exactly command t = true := List.find?_some hfind
    have ht : t = command := by simpa [exactly] using hp
    have hmem : t ∈ received d.listening batch := List.mem_of_find?_eq_some hfind
    have hne : t ≠ "" := received_ne_empty _ _ t hmem
    have hemp : t.isEmpty = false := by
      cases h : t.isEmpty
      · rfl
      · exact absurd ((String.isEmpty_iff t).mp h) hne
    subst ht
    simp only [Option.getD_some, hemp, if_pos hmem, Bool.false_eq_true, if_false]

theorem wait_clear_ack_nak (d : Driver) (env : Env) :
    wait (d.clear .ack_nak_filt) env .ack_nak_filt =
      match (received d.listening (env.headD [])).filter isAckOrNak with
      | t :: rest =>
        (t, (listen (d.clear .ack_nak_filt) (env.headD [])).setBuffer .ack_nak_filt rest,
          env.tail)
      | [] => ("", listen (d.clear .ack_nak_filt) (env.headD []), env.tail) := by
  simp only [wait, Driver.clear, Driver.setBuffer, Driver.buffer, listen_eq, List.nil_append]

theorem wait_clear_rc_msg (d : Driver) (env : Env) :
    wait (d.clear .rc_msg_filter_) env .rc_msg_filter_ =
      match (received d.listening (env.headD [])).filter (startsWith ":") with
      | t :: rest =>
        (t, (listen (d.clear .rc_msg_filter_) (env.headD [])).setBuffer .rc_msg_filter_ rest,
          env.tail)
      | [] => ("", listen (d.clear .rc_msg_filter_) (env.headD []), env.tail) := by
  simp only [wait, Driver.clear, Driver.setBuffer, Driver.buffer, listen_eq, List.nil_append]


theorem setBuffer_self (d : Driver) (f : BufferedFilter) (q : List String)
    (h : d.buffer f = q) : d.setBuffer f q = d := by
  subst h
  cases f <;> rfl

theorem listen_ack_nak_filt (d : Driver) (b : List String) :
    (listen d b).ack_nak_filt
      = d.ack_nak_filt ++ (received d.listening b).filter isAckOrNak := by
  rw [listen_eq]

theorem listen_rc_msg_filter (d : Driver) (b : List String) :
    (listen d b).rc_msg_filter_
      = d.rc_msg_filter_ ++ (received d.listening b).filter (startsWith ":") := by
  rw [listen_eq]

theorem listen_encoders_filt (d : Driver) (b : List String) :
    (listen d b).encoders_filt
      = d.encoders_filt ++ (received d.listening b).filter isAnEncoderMsg := by
  rw [listen_eq]

@[simp] theorem wait_written (d : Driver) (env : Env) (f : BufferedFilter) :
    (wait d env f).2.1.written = d.written := by
  unfold wait
  split
  · simp
  · dsimp only
    split <;> simp

@[simp] theorem wait_listening (d : Driver) (env : Env) (f : BufferedFilter) :
    (wait d env f).2.1.listening = d.listening := by
  unfold wait
  split
  · simp
  · dsimp only
    split <;> simp

@[simp] theorem wait_connected (d : Driver) (env : Env) (f : BufferedFilter) :
    (wait d env f).2.1.connected_ = d.connected_ := by
  unfold wait
  split
  · simp
  · dsimp only
    split <;> simp

@[simp] theorem wait_synched (d : Driver) (env : Env) (f : BufferedFilter) :
    (wait d env f).2.1.synched_ = d.synched_ := by
  unfold wait
  split
  · simp
  · dsimp only
    split <;> simp

/-! ## The confirm block of `move` in closed form -/

theorem move_confirm_echo (d : Driver) (b1 b2 : List String) (rest : Env) (frame fw : String)
    (hecho : frame ∈ received d.listening b1) :
    move_confirm d (b1 :: b2 :: rest) frame fw =
      ⟨afterConfirm d frame b1 b2, rest,
        match nextAckNak d.listening b2 with
        | some t =>
          if t = "+" then .ok fw
          else if t = "-" then .error (.CommandFailedException "nak received, command failed")
          else .error (.CommandFailedException "did not receive an ack or nak")
        | none => .error (.CommandFailedException "did not receive an ack or nak")⟩ := by
  simp only [move_confirm, issueCommand_eq, List.headD_cons, List.tail_cons, if_pos hecho,
    wait_clear_ack_nak, listen_listening, write_listening, nextAckNak, afterConfirm,
    Bool.not_true, Bool.false_eq_true, if_false]
  cases hf : (received d.listening b2).filter isAckOrNak with
  | nil =>
    have e1 : ("" : String) ≠ "+" := by decide
    have e2 : ("" : String) ≠ "-" := by decide
    simp only [List.head?_nil, List.tail_nil, if_pos e1, if_neg e2]
    congr 1
    refine (setBuffer_self _ _ _ ?_).symm
    simp only [Driver.buffer, listen_ack_nak_filt, listen_listening, write_listening,
      clear_listening, hf, List.append_nil]
    rfl
  | cons t l =>
    simp only [List.head?_cons, List.tail_cons, ne_eq, ite_not]
    split_ifs <;> rfl

theorem move_confirm_no_echo (d : Driver) (env : Env) (frame fw : String)
    (hecho : frame ∉ received d.listening (env.headD [])) :
    move_confirm d env frame fw =
      ⟨listen (d.write frame) (env.headD []), env.tail,
        .error (.CommandFailedException "failed to receive an echo")⟩ := by
  simp only [move_confirm, issueCommand_eq, if_neg hecho]
  rfl

theorem move_confirm_written (d : Driver) (env : Env) (frame fw : String) :
    (move_confirm d env frame fw).driver.written = d.written ++ [frame] := by
  simp only [move_confirm, issueCommand_eq]
  split_ifs <;> simp

theorem move_written_cases (d : Driver) (env : Env) (speed direction : ℚ)
    (hc : d.connected_ = true) :
    (move d env speed direction).driver.written = d.written ++ [speedFrame speed] ∨
    (move d env speed direction).driver.written
      = d.written ++ [speedFrame speed, directionFrame direction] := by
  have hguard : (!d.connected_) = false := by simp [hc]
  simp only [move, hguard, Bool.false_eq_true, if_false]
  have h1 := move_confirm_written d env (speedFrame speed) ""
  revert h1
  generalize move_confirm d env (speedFrame speed) "" = o1
  intro h1
  rcases o1 with ⟨d1, env1, e | fw⟩
  · left; simpa using h1
  · right
    dsimp only
    have h2 := move_confirm_written d1 env1 (directionFrame direction) fw
    revert h2
    generalize move_confirm d1 env1 (directionFrame direction) fw = o2
    intro h2
    have h1' : d1.written = d.written ++ [speedFrame speed] := h1
    rcases o2 with ⟨d2, env2, e | v⟩ <;> simpa [h1'] using h2

@[simp] theorem afterConfirm_written (d : Driver) (frame : String) (b1 b2 : List String) :
    (afterConfirm d frame b1 b2).written = d.written ++ [frame] := by
  simp [afterConfirm]

@[simp] theorem afterConfirm_listening (d : Driver) (frame : String) (b1 b2 : List String) :
    (afterConfirm d frame b1 b2).listening = d.listening := by
  simp [afterConfirm]

/-! ## The probe loop and `sync_` in closed form -/

theorem waitFor_exactly (d : Driver) (env : Env) (what : String) :
    waitFor d env (exactly what) =
      (if what ∈ received d.listening (env.headD []) then what else "",
        listen d (env.headD []), env.tail) := by
  simp only [waitFor]
  generalize List.headD env [] = batch
  cases hfind : (received d.listening batch).find? (exactly what) with
  | none =>
    have hnot : what ∉ received d.listening batch := by
      intro hmem
      have := List.find?_eq_none.mp hfind what hmem
      simp [exactly] at this
    simp only [Option.getD_none, if_neg hnot]
  | some t =>
    have hp : exactly what t = true := List.find?_some hfind
    have ht : t = what := by simpa [exactly] using hp
    have hmem : t ∈ received d.listening batch := List.mem_of_find?_eq_some hfind
    subst ht
    simp only [Option.getD_some, if_pos hmem]

theorem okProbe_succ (n : Nat) (d : Driver) (env : Env) :
    okProbe (n + 1) d env =
      if "OK" ∈ received d.listening (env.headD []) then
        (true, listen (d.write "\r") (env.headD []), env.tail)
      else okProbe n (listen (d.write "\r") (env.headD [])) env.tail := by
  rw [okProbe]
  simp only [waitFor_exactly, write_listening]
  have e1 : ("OK" : String).isEmpty = false := by decide
  have e2 : ("" : String).isEmpty = true := by decide
  by_cases h : "OK" ∈ received d.listening (env.headD [])
  · simp only [if_pos h, e1, Bool.not_false, if_true]
  · simp only [if_neg h, e2, Bool.not_true, Bool.false_eq_true, if_false]

theorem okProbe_no_ok (n : Nat) (d : Driver) (env : Env)
    (h : ∀ b ∈ env, "OK" ∉ received d.listening b) :
    (okProbe n d env).1 = false ∧
    (okProbe n d env).2.1.written = d.written ++ List.replicate n "\r" ∧
    (okProbe n d env).2.1.synched_ = d.synched_ ∧
    (okProbe n d env).2.1.infos = d.infos ∧
    (okProbe n d env).2.1.connected_ = d.connected_ := by
  induction n generalizing d env with
  | zero => simp [okProbe]
  | succ n ih =>
    have hhead : "OK" ∉ received d.listening (env.headD []) := by
      cases env with
      | nil => simp [received]
      | cons b env => exact h b (List.mem_cons_self b env)
    have htail : ∀ b ∈ env.tail,
        "OK" ∉ received (listen (d.write "\r") (env.headD [])).listening b := by
      intro b hb
      simpa using h b (List.mem_of_mem_tail hb)
    rw [okProbe_succ, if_neg hhead]
    obtain ⟨h1, h2, h3, h4, h5⟩ := ih (listen (d.write "\r") (env.headD [])) env.tail htail
    refine ⟨h1, ?_, ?_, ?_, ?_⟩
    · rw [h2]; simp [List.replicate_succ]
    · rw [h3]; simp
    · rw [h4]; simp
    · rw [h5]; simp

theorem okProbe_found (n : Nat) (d : Driver) (pre : List (List String)) (okb : List String)
    (rest : Env) (hlen : pre.length < n)
    (hpre : ∀ b ∈ pre, "OK" ∉ received d.listening b)
    (hok : "OK" ∈ received d.listening okb) :
    (okProbe n d (pre ++ okb :: rest)).1 = true ∧
    (okProbe n d (pre ++ okb :: rest)).2.2 = rest ∧
    (okProbe n d (pre ++ okb :: rest)).2.1.written
      = d.written ++ List.replicate (pre.length + 1) "\r" ∧
    (okProbe n d (pre ++ okb :: rest)).2.1.synched_ = d.synched_ ∧
    (okProbe n d (pre ++ okb :: rest)).2.1.infos = d.infos ∧
    (okProbe n d (pre ++ okb :: rest)).2.1.connected_ = d.connected_ := by
  induction pre generalizing n d with
  | nil =>
    obtain ⟨m, rfl⟩ : ∃ m, n = m + 1 := ⟨n - 1, by simp at hlen; omega⟩
    rw [List.nil_append, okProbe_succ]
    simp [hok]
  | cons b pre ih =>
    obtain ⟨m, rfl⟩ : ∃ m, n = m + 1 := ⟨n - 1, by simp at hlen; omega⟩
    have hb : "OK" ∉ received d.listening b := hpre b (List.mem_cons_self b pre)
    rw [List.cons_append, okProbe_succ]
    simp only [List.headD_cons, List.tail_cons, if_neg hb]
    have hlen' : pre.length < m := by simp at hlen; omega
    obtain ⟨h1, h2, h3, h4, h5, h6⟩ := ih m (listen (d.write "\r") b) hlen'
      (fun b' hb' => by simpa using hpre b' (List.mem_cons_of_mem b hb'))
      (by simpa using hok)
    refine ⟨h1, h2, ?_, ?_, ?_, ?_⟩
    · rw [h3]; simp [List.replicate_succ]
    · rw [h4]; simp
    · rw [h5]; simp
    · rw [h6]; simp

theorem okProbe_written_bound (n : Nat) (d : Driver) (env : Env) :
    ∃ k, k ≤ n ∧ (okProbe n d env).2.1.written = d.written ++ List.replicate k "\r" := by
  induction n generalizing d env with
  | zero => exact ⟨0, le_refl 0, by simp [okProbe]⟩
  | succ n ih =>
    rw [okProbe_succ]
    split_ifs with h
    · exact ⟨1, by omega, by simp⟩
    · obtain ⟨k, hk, hw⟩ := ih (listen (d.write "\r") (env.headD [])) env.tail
      exact ⟨k + 1, by omega, by rw [hw]; simp [List.replicate_succ]⟩

theorem sync__of_reset_ack (d : Driver) (b0 : List String) (env : Env)
    (hs : d.synched_ = false)
    (hrc : ∃ t ∈ received d.listening b0, startsWith ":" t = true) :
    sync_ d (b0 :: env) =
      if (okProbe 10 (afterReset d b0) env).1 then
        ⟨{ (okProbe 10 (afterReset d b0) env).2.1 with
            synched_ := true
            infos := (okProbe 10 (afterReset d b0) env).2.1.infos
              ++ ["Synchronized with the ax2550"] },
          (okProbe 10 (afterReset d b0) env).2.2, .ok ()⟩
      else
        ⟨(okProbe 10 (afterReset d b0) env).2.1, (okProbe 10 (afterReset d b0) env).2.2,
          .error (.SynchronizationException "failed to get into serial mode")⟩ := by
  obtain ⟨t, ht, hp⟩ := hrc
  cases hf : (received d.listening b0).filter (startsWith ":") with
  | nil =>
    have : t ∈ (received d.listening b0).filter (startsWith ":") :=
      List.mem_filter.mpr ⟨ht, hp⟩
    rw [hf] at this
    simp at this
  | cons a l =>
    have ha : a ∈ received d.listening b0 :=
      (List.mem_filter.mp (by rw [hf]; exact List.mem_cons_self a l)).1
    have hne : a ≠ "" := received_ne_empty _ _ a ha
    have hemp : a.isEmpty = false := by
      cases h : a.isEmpty
      · rfl
      · exact absurd ((String.isEmpty_iff a).mp h) hne
    simp only [sync_, hs, Bool.false_eq_true, if_false, wait_clear_rc_msg, write_listening,
      List.headD_cons, List.tail_cons, hf, hemp, afterReset]
    split_ifs with h1 h2 h3 <;> simp_all


theorem sync__no_reset_ack (d : Driver) (env : Env) (hs : d.synched_ = false)
    (hno : (received d.listening (env.headD [])).filter (startsWith ":") = []) :
    sync_ d env =
      ⟨listen ((d.write "%rrrrrr\r").clear .rc_msg_filter_) (env.headD []), env.tail,
        .error (.SynchronizationException "did not receive an R/C message after reset")⟩ := by
  have hemp : ("" : String).isEmpty = true := by decide
  simp only [sync_, hs, Bool.false_eq_true, if_false, wait_clear_rc_msg, write_listening,
    hno, hemp, if_true]

theorem received_subset (listening : Bool) (batch : List String) (t : String)
    (h : t ∈ received listening batch) : t ∈ batch := by
  unfold received at h
  split_ifs at h
  · exact (List.mem_filter.mp h).1
  · simp at h

@[simp] theorem afterReset_written (d : Driver) (b0 : List String) :
    (afterReset d b0).written = d.written ++ ["%rrrrrr\r"] := by
  simp [afterReset]

@[simp] theorem afterReset_listening (d : Driver) (b0 : List String) :
    (afterReset d b0).listening = d.listening := by
  simp [afterReset]

@[simp] theorem afterReset_synched (d : Driver) (b0 : List String) :
    (afterReset d b0).synched_ = d.synched_ := by
  simp [afterReset]

@[simp] theorem afterReset_infos (d : Driver) (b0 : List String) :
    (afterReset d b0).infos = d.infos := by
  simp [afterReset]

@[simp] theorem afterReset_connected (d : Driver) (b0 : List String) :
    (afterReset d b0).connected_ = d.connected_ := by
  simp [afterReset]

theorem sync__probe_bound (d : Driver) (env : Env) :
    ∃ k, k ≤ 10 ∧
      ((sync_ d env).driver.written = d.written ∨
        (sync_ d env).driver.written = d.written ++ "%rrrrrr\r" :: List.replicate k "\r") := by
  cases hs : d.synched_ with
  | true => exact ⟨0, by omega, Or.inl (by simp [sync_, hs])⟩
  | false =>
    cases hf : (received d.listening (env.headD [])).filter (startsWith ":") with
    | nil =>
      refine ⟨0, by omega, Or.inr ?_⟩
      rw [sync__no_reset_ack d env hs hf]
      simp
    | cons t l =>
      cases env with
      | nil => simp [received] at hf
      | cons b0 env =>
        have hmem : t ∈ (received d.listening b0).filter (startsWith ":") := by
          simp only [List.headD_cons] at hf
          rw [hf]; exact List.mem_cons_self t l
        have hrc : ∃ t ∈ received d.listening b0, startsWith ":" t = true :=
          ⟨t, (List.mem_filter.mp hmem).1, (List.mem_filter.mp hmem).2⟩
        obtain ⟨k, hk, hw⟩ := okProbe_written_bound 10 (afterReset d b0) env
        refine ⟨k, hk, Or.inr ?_⟩
        rw [sync__of_reset_ack d b0 env hs hrc]
        split_ifs <;> simp [hw]

/-! ## An answered encoder query -/

theorem containsChars_singleton (l : List Char) (a : Char) :
    containsChars l [a] = true ↔ a ∈ l := by
  induction l with
  | nil => simp [containsChars]
  | cons c cs ih =>
    simp only [containsChars, List.isPrefixOf, Bool.or_eq_true, ih, List.mem_cons,
      Bool.and_true, beq_iff_eq]

theorem isAnEncoderMsg_cons (a : Char) (cs : List Char) :
    isAnEncoderMsg ⟨a :: cs⟩ = true ↔ a ∈ "0123456789abcdefABCDEF".data := by
  simp only [isAnEncoderMsg, contains, substr01, List.take_succ_cons, List.take_zero,
    containsChars_singleton]
  simp

theorem received_true_singleton (t : String) (h : t ≠ "") : received true [t] = [t] := by
  simp [received, h]

theorem isEmpty_eq_false (t : String) (h : t ≠ "") : t.isEmpty = false := by
  cases hh : t.isEmpty
  · rfl
  · exact absurd ((String.isEmpty_iff t).mp hh) h

/-! ## The parse block of `queryEncoder_` -/

theorem size_t_sub_of_le (n : Nat) (h : n ≤ 8) : size_t_sub 8 n = 8 - n := by
  unfold size_t_sub
  norm_num
  omega

theorem size_t_sub_of_gt (n : Nat) (h : 8 < n) (h2 : n ≤ string_max_size) :
    string_max_size < size_t_sub 8 n := by
  unfold size_t_sub string_max_size at *
  norm_num at *
  omega

theorem queryEncoder_parse_of_le (response : String) (h : response.length ≤ 8) :
    queryEncoder_parse response = .ok (sscanfX (String.mk
      ((if findsFirstOf (substr01 response) "01234567" then '0' else 'F')
        :: response.data)) 0) := by
  have hfill : ∀ c : Char, string_fill (size_t_sub 8 response.length) c
      = .ok (String.mk (List.replicate (8 - response.length) c)) := by
    intro c
    rw [size_t_sub_of_le _ h]
    unfold string_fill string_max_size
    rw [if_neg (by norm_num; omega)]
  simp only [queryEncoder_parse, hfill]

theorem queryEncoder_parse_of_gt (response : String) (h : 8 < response.length)
    (h2 : response.length ≤ string_max_size) :
    queryEncoder_parse response = .error .length_error := by
  have hfill : ∀ c : Char, string_fill (size_t_sub 8 response.length) c
      = .error .length_error := by
    intro c
    unfold string_fill
    rw [if_pos (size_t_sub_of_gt _ h h2)]
  simp only [queryEncoder_parse, hfill]

theorem queryEncoder_parse_error (response : String) (e : Exception)
    (h : queryEncoder_parse response = .error e) :
    e = .length_error ∧ 8 < response.length := by
  by_cases hle : response.length ≤ 8
  · rw [queryEncoder_parse_of_le response hle] at h
    cases h
  · refine ⟨?_, by omega⟩
    simp only [queryEncoder_parse, string_fill] at h
    split_ifs at h <;> simp at h <;> exact h.symm

theorem sscanfX_range (text : String) :
    -2 ^ 31 ≤ sscanfX text 0 ∧ sscanfX text 0 < 2 ^ 31 := by
  simp only [sscanfX]
  split
  · exact toSigned32_range _
  · norm_num

theorem queryEncoder_parse_range (response : String) (v : Int)
    (h : queryEncoder_parse response = .ok v) : -2 ^ 31 ≤ v ∧ v < 2 ^ 31 := by
  simp only [queryEncoder_parse, string_fill] at h
  split_ifs at h <;> simp at h <;> (subst h; exact sscanfX_range _)

/-! ## `queryEncoder_` with its answer -/

theorem queryEncoder__answered (d : Driver) (cmd response : String) (rest : Env)
    (hl : d.listening = true) (hb : d.encoders_filt = [])
    (hcmd : cmd ≠ "") (hne : isAnEncoderMsg cmd = false)
    (hr : response ≠ "") (hresp : isAnEncoderMsg response = true) :
    (queryEncoder_ d ([cmd] :: [response] :: rest) cmd).result
      = queryEncoder_parse response ∧
    (queryEncoder_ d ([cmd] :: [response] :: rest) cmd).driver.written
      = d.written ++ [cmd] ∧
    (queryEncoder_ d ([cmd] :: [response] :: rest) cmd).env = rest := by
  have hecho : cmd ∈ received d.listening [cmd] := by
    rw [hl, received_true_singleton cmd hcmd]; exact List.mem_singleton_self cmd
  have hbuf1 : (listen (d.write cmd) [cmd]).buffer .encoders_filt = [] := by
    simp only [Driver.buffer, listen_encoders_filt, write_listening, hl,
      received_true_singleton cmd hcmd]
    simp [Driver.write, hb, hne]
  have hbuf2 : (listen (listen (d.write cmd) [cmd]) [response]).buffer .encoders_filt
      = [response] := by
    have h1 : (listen (d.write cmd) [cmd]).encoders_filt = [] := hbuf1
    show (listen (listen (d.write cmd) [cmd]) [response]).encoders_filt = [response]
    rw [listen_encoders_filt, h1, listen_listening, write_listening, hl,
      received_true_singleton response hr]
    simp [hresp]
  have hwait : wait (listen (d.write cmd) [cmd]) ([response] :: rest) .encoders_filt
      = (response, (listen (listen (d.write cmd) [cmd]) [response]).setBuffer
          .encoders_filt [], rest) := by
    simp only [wait, hbuf1, List.headD_cons, hbuf2, List.tail_cons]
  simp only [queryEncoder_, issueCommand_eq, List.headD_cons, List.tail_cons, if_pos hecho,
    Bool.not_true, Bool.false_eq_true, if_false, hwait, isEmpty_eq_false response hr]
  simp

/-! ## `queryEncoder_` and `queryEncoders` in closed form -/

theorem queryEncoders_eq (d : Driver) (env : Env) (encoder1 encoder2 : Int)
    (relative : Bool) :
    queryEncoders d env encoder1 encoder2 relative =
      match queryEncoder_ (queryEncoders_begin d) env (firstQuery relative) with
      | ⟨d1, env1, .error e⟩ => ⟨d1, env1, encoder1, encoder2, .error e⟩
      | ⟨d1, env1, .ok value1⟩ =>
        match queryEncoder_ d1 env1 (secondQuery relative) with
        | ⟨d2, env2, .error e⟩ => ⟨d2, env2, value1, encoder2, .error e⟩
        | ⟨d2, env2, .ok value2⟩ => ⟨d2, env2, value1, value2, .ok ()⟩ := rfl

@[simp] theorem listen_warns (d : Driver) (b : List String) :
    (listen d b).warns = d.warns := by rw [listen_eq]

@[simp] theorem setBuffer_warns (d : Driver) (f : BufferedFilter) (q : List String) :
    (d.setBuffer f q).warns = d.warns := by cases f <;> rfl

@[simp] theorem clear_warns (d : Driver) (f : BufferedFilter) :
    (d.clear f).warns = d.warns := setBuffer_warns d f []

@[simp] theorem write_warns (d : Driver) (t : String) :
    (d.write t).warns = d.warns := rfl

@[simp] theorem wait_warns (d : Driver) (env : Env) (f : BufferedFilter) :
    (wait d env f).2.1.warns = d.warns := by
  unfold wait
  split
  · simp
  · dsimp only
    split <;> simp

theorem queryEncoder__frame (d : Driver) (env : Env) (cmd : String) :
    (queryEncoder_ d env cmd).driver.written = d.written ++ [cmd] ∧
    (queryEncoder_ d env cmd).driver.listening = d.listening ∧
    (queryEncoder_ d env cmd).driver.warns = d.warns ∧
    (queryEncoder_ d env cmd).driver.connected_ = d.connected_ ∧
    (queryEncoder_ d env cmd).driver.synched_ = d.synched_ := by
  simp only [queryEncoder_, issueCommand_eq]
  split_ifs <;> simp

theorem queryEncoder__error_kind (d : Driver) (env : Env) (cmd : String) (e : Exception)
    (h : (queryEncoder_ d env cmd).result = .error e) :
    (∃ what, e = .CommandFailedException what) ∨ e = .length_error := by
  simp only [queryEncoder_, issueCommand_eq] at h
  split_ifs at h <;>
    first
    | exact Or.inr (queryEncoder_parse_error _ e h).1
    | (simp at h; exact Or.inl ⟨_, h.symm⟩)

theorem queryEncoder__no_echo (d : Driver) (env : Env) (cmd : String)
    (hecho : cmd ∉ received d.listening (env.headD [])) :
    queryEncoder_ d env cmd =
      ⟨listen (d.write cmd) (env.headD []), env.tail,
        .error (.CommandFailedException "failed to receive an echo")⟩ := by
  simp only [queryEncoder_, issueCommand_eq, if_neg hecho]
  rfl


theorem queryEncoder__buffered (d : Driver) (cmd : String) (be : List String) (rest : Env)
    (s : String) (more : List String)
    (hecho : cmd ∈ received d.listening be)
    (hbuf : d.encoders_filt ++ (received d.listening be).filter isAnEncoderMsg = s :: more)
    (hs : s ≠ "") :
    (queryEncoder_ d (be :: rest) cmd).result = queryEncoder_parse s ∧
    (queryEncoder_ d (be :: rest) cmd).env = rest ∧
    (queryEncoder_ d (be :: rest) cmd).driver.encoders_filt = more := by
  have hbuf1 : (listen (d.write cmd) be).buffer .encoders_filt = s :: more := by
    show (listen (d.write cmd) be).encoders_filt = s :: more
    rw [listen_encoders_filt, write_listening]
    exact hbuf
  have hwait : wait (listen (d.write cmd) be) rest .encoders_filt
      = (s, (listen (d.write cmd) be).setBuffer .encoders_filt more, rest) := by
    simp only [wait, hbuf1]
  simp only [queryEncoder_, issueCommand_eq, List.headD_cons, List.tail_cons, if_pos hecho,
    Bool.not_true, Bool.false_eq_true, if_false, hwait, isEmpty_eq_false s hs]
  exact ⟨trivial, trivial, rfl⟩

theorem queryEncoder__answered_gen (d : Driver) (cmd : String) (be ba : List String)
    (rest : Env) (r : String) (surplus : List String)
    (hecho : cmd ∈ received d.listening be)
    (hb : d.encoders_filt = [])
    (hbe : (received d.listening be).filter isAnEncoderMsg = [])
    (hba : (received d.listening ba).filter isAnEncoderMsg = r :: surplus) :
    (queryEncoder_ d (be :: ba :: rest) cmd).result = queryEncoder_parse r ∧
    (queryEncoder_ d (be :: ba :: rest) cmd).env = rest ∧
    (queryEncoder_ d (be :: ba :: rest) cmd).driver.encoders_filt = surplus := by
  have hr : r ≠ "" := by
    have hmem : r ∈ (received d.listening ba).filter isAnEncoderMsg := by
      rw [hba]; exact List.mem_cons_self r surplus
    exact received_ne_empty _ _ r (List.mem_filter.mp hmem).1
  have hbuf1 : (listen (d.write cmd) be).buffer .encoders_filt = [] := by
    show (listen (d.write cmd) be).encoders_filt = []
    rw [listen_encoders_filt, write_listening, hbe]
    simp [Driver.write, hb]
  have hbuf2 : (listen (listen (d.write cmd) be) ba).buffer .encoders_filt
      = r :: surplus := by
    have h1 : (listen (d.write cmd) be).encoders_filt = [] := hbuf1
    show (listen (listen (d.write cmd) be) ba).encoders_filt = r :: surplus
    rw [listen_encoders_filt, h1, listen_listening, write_listening, hba]
    rfl
  have hwait : wait (listen (d.write cmd) be) (ba :: rest) .encoders_filt
      = (r, (listen (listen (d.write cmd) be) ba).setBuffer .encoders_filt surplus,
          rest) := by
    simp only [wait, hbuf1, List.headD_cons, hbuf2, List.tail_cons]
  simp only [queryEncoder_, issueCommand_eq, List.headD_cons, List.tail_cons, if_pos hecho,
    Bool.not_true, Bool.false_eq_true, if_false, hwait, isEmpty_eq_false r hr]
  exact ⟨trivial, trivial, rfl⟩

theorem queryEncoder__no_response (d : Driver) (cmd : String) (be : List String) (env : Env)
    (hecho : cmd ∈ received d.listening be)
    (hb : d.encoders_filt = [])
    (hbe : (received d.listening be).filter isAnEncoderMsg = [])
    (hba : (received d.listening (env.headD [])).filter isAnEncoderMsg = []) :
    (queryEncoder_ d (be :: env) cmd).result
      = .error (.CommandFailedException ("failed to receive a response from " ++ cmd)) := by
  have hbuf1 : (listen (d.write cmd) be).buffer .encoders_filt = [] := by
    show (listen (d.write cmd) be).encoders_filt = []
    rw [listen_encoders_filt, write_listening, hbe]
    simp [Driver.write, hb]
  have hbuf2 : (listen (listen (d.write cmd) be) (env.headD [])).buffer .encoders_filt
      = [] := by
    have h1 : (listen (d.write cmd) be).encoders_filt = [] := hbuf1
    show (listen (listen (d.write cmd) be) (env.headD [])).encoders_filt = []
    rw [listen_encoders_filt, h1, listen_listening, write_listening, hba]
    rfl
  have hwait : wait (listen (d.write cmd) be) env .encoders_filt
      = ("", listen (listen (d.write cmd) be) (env.headD []), env.tail) := by
    simp only [wait, hbuf1, hbuf2]
  have hemp : ("" : String).isEmpty = true := by decide
  simp only [queryEncoder_, issueCommand_eq, List.headD_cons, List.tail_cons, if_pos hecho,
    Bool.not_true, Bool.false_eq_true, if_false, hwait, hemp, if_true]


@[simp] theorem queryEncoders_begin_listening (d : Driver) :
    (queryEncoders_begin d).listening = d.listening := by
  unfold queryEncoders_begin
  split_ifs <;> simp

@[simp] theorem queryEncoders_begin_written (d : Driver) :
    (queryEncoders_begin d).written = d.written := by
  unfold queryEncoders_begin
  split_ifs <;> simp

@[simp] theorem queryEncoders_begin_encoders_filt (d : Driver) :
    (queryEncoders_begin d).encoders_filt = [] := by
  unfold queryEncoders_begin
  split_ifs <;> rfl

theorem queryEncoders_answered (d : Driver) (e1 e2 : Int) (relative : Bool)
    (be1 ba1 be2 ba2 : List String) (rest : Env) (r1 r2 : String)
    (h1 : Answered d.listening (firstQuery relative) be1 ba1 r1)
    (h2 : Answered d.listening (secondQuery relative) be2 ba2 r2) :
    (queryEncoders d (be1 :: ba1 :: be2 :: ba2 :: rest) e1 e2 relative).result = .ok () ∧
    queryEncoder_parse r1
      = .ok (queryEncoders d (be1 :: ba1 :: be2 :: ba2 :: rest) e1 e2 relative).encoder1 ∧
    queryEncoder_parse r2
      = .ok (queryEncoders d (be1 :: ba1 :: be2 :: ba2 :: rest) e1 e2 relative).encoder2 ∧
    (queryEncoders d (be1 :: ba1 :: be2 :: ba2 :: rest) e1 e2 relative).env = rest ∧
    (queryEncoders d (be1 :: ba1 :: be2 :: ba2 :: rest) e1 e2 relative).driver.written
      = d.written ++ [firstQuery relative, secondQuery relative] ∧
    (queryEncoders d (be1 :: ba1 :: be2 :: ba2 :: rest) e1 e2 relative).driver.listening
      = d.listening := by
  obtain ⟨hecho1, hbe1, hba1, hlen1⟩ := h1
  obtain ⟨hecho2, hbe2, hba2, hlen2⟩ := h2
  have P1 := queryEncoder_parse_of_le r1 hlen1
  have P2 := queryEncoder_parse_of_le r2 hlen2
  rw [queryEncoders_eq]
  have A := queryEncoder__answered_gen (queryEncoders_begin d) (firstQuery relative) be1 ba1
    (be2 :: ba2 :: rest) r1 [] (by simpa using hecho1) (by simp) (by simpa using hbe1)
    (by simpa using hba1)
  have F := queryEncoder__frame (queryEncoders_begin d) (be1 :: ba1 :: be2 :: ba2 :: rest)
    (firstQuery relative)
  revert A F
  generalize queryEncoder_ (queryEncoders_begin d) (be1 :: ba1 :: be2 :: ba2 :: rest)
    (firstQuery relative) = o1
  rcases o1 with ⟨d1, env1, res1⟩
  rintro ⟨hres1, henv1, hbuf1⟩ ⟨hw1, hl1, -, -, -⟩
  simp only at hres1 henv1 hbuf1 hw1 hl1
  rw [P1] at hres1
  subst hres1 henv1
  simp only [queryEncoders_begin_written, queryEncoders_begin_listening] at hw1 hl1
  dsimp only
  have B := queryEncoder__answered_gen d1 (secondQuery relative) be2 ba2 rest r2 []
    (by rw [hl1]; exact hecho2) hbuf1 (by rw [hl1]; exact hbe2) (by rw [hl1]; exact hba2)
  have G := queryEncoder__frame d1 (be2 :: ba2 :: rest) (secondQuery relative)
  revert B G
  generalize queryEncoder_ d1 (be2 :: ba2 :: rest) (secondQuery relative) = o2
  rcases o2 with ⟨d2, env2, res2⟩
  rintro ⟨hres2, henv2, -⟩ ⟨hw2, hl2, -, -, -⟩
  simp only at hres2 henv2 hw2 hl2
  rw [P2] at hres2
  subst hres2 henv2
  refine ⟨rfl, P1, P2, rfl, ?_, ?_⟩
  · show d2.written = _
    rw [hw2, hw1]; simp
  · show d2.listening = _
    rw [hl2, hl1]

theorem queryEncoders_begin_warns (d : Driver) :
    (queryEncoders_begin d).warns
      = d.warns ++ (if d.encoders_filt = [] then [] else
          ["There were " ++ toString d.encoders_filt.length
            ++ " orphaned encoder messages in the filter..."]) := by
  unfold queryEncoders_begin
  by_cases h : d.encoders_filt = []
  · simp [Driver.count, Driver.buffer, h]
  · simp [Driver.count, Driver.buffer, h]

theorem queryEncoders_warns (d : Driver) (env : Env) (e1 e2 : Int) (relative : Bool) :
    (queryEncoders d env e1 e2 relative).driver.warns = (queryEncoders_begin d).warns := by
  rw [queryEncoders_eq]
  have F := queryEncoder__frame (queryEncoders_begin d) env (firstQuery relative)
  revert F
  generalize queryEncoder_ (queryEncoders_begin d) env (firstQuery relative) = o1
  rcases o1 with ⟨d1, env1, e | v1⟩
  · rintro ⟨-, -, hw, -, -⟩
    exact hw
  · rintro ⟨-, -, hw, -, -⟩
    dsimp only
    have G := queryEncoder__frame d1 env1 (secondQuery relative)
    revert G
    generalize queryEncoder_ d1 env1 (secondQuery relative) = o2
    rcases o2 with ⟨d2, env2, e | v2⟩
    · rintro ⟨-, -, hw2, -, -⟩
      exact hw2.trans hw
    · rintro ⟨-, -, hw2, -, -⟩
      exact hw2.trans hw

/-! ## Encoder tokens of at most 8 characters -/

theorem listen_short (d : Driver) (b : List String)
    (hbuf : ∀ t ∈ d.encoders_filt, t.length ≤ 8)
    (hb : ∀ t ∈ b, isAnEncoderMsg t = true → t.length ≤ 8) :
    ∀ t ∈ (listen d b).encoders_filt, t.length ≤ 8 := by
  intro t ht
  rw [listen_encoders_filt] at ht
  rcases List.mem_append.mp ht with h | h
  · exact hbuf t h
  · obtain ⟨h1, h2⟩ := List.mem_filter.mp h
    exact hb t (received_subset _ _ t h1) h2

theorem headD_short (env : Env)
    (henv : ∀ b ∈ env, ∀ t ∈ b, isAnEncoderMsg t = true → t.length ≤ 8) :
    ∀ t ∈ env.headD [], isAnEncoderMsg t = true → t.length ≤ 8 := by
  cases env with
  | nil => intro t ht; simp at ht
  | cons b rest => exact henv b (List.mem_cons_self b rest)

theorem tail_short (env : Env)
    (henv : ∀ b ∈ env, ∀ t ∈ b, isAnEncoderMsg t = true → t.length ≤ 8) :
    ∀ b ∈ env.tail, ∀ t ∈ b, isAnEncoderMsg t = true → t.length ≤ 8 :=
  fun b hb => henv b (List.mem_of_mem_tail hb)

theorem wait_short (d : Driver) (env : Env)
    (hbuf : ∀ t ∈ d.encoders_filt, t.length ≤ 8)
    (henv : ∀ b ∈ env, ∀ t ∈ b, isAnEncoderMsg t = true → t.length ≤ 8) :
    (wait d env .encoders_filt).1.length ≤ 8 ∧
    (∀ t ∈ (wait d env .encoders_filt).2.1.encoders_filt, t.length ≤ 8) ∧
    (∀ b ∈ (wait d env .encoders_filt).2.2, ∀ t ∈ b, isAnEncoderMsg t = true →
      t.length ≤ 8) := by
  have hl := listen_short d (env.headD []) hbuf (headD_short env henv)
  unfold wait
  cases h1 : d.buffer .encoders_filt with
  | cons token rest =>
    have h1' : d.encoders_filt = token :: rest := h1
    rw [h1'] at hbuf
    refine ⟨hbuf token (List.mem_cons_self _ _), ?_, henv⟩
    intro t ht
    exact hbuf t (List.mem_cons_of_mem _ ht)
  | nil =>
    dsimp only
    cases h2 : (listen d (env.headD [])).buffer .encoders_filt with
    | cons token rest =>
      have h2' : (listen d (env.headD [])).encoders_filt = token :: rest := h2
      rw [h2'] at hl
      refine ⟨hl token (List.mem_cons_self _ _), ?_, tail_short env henv⟩
      intro t ht
      exact hl t (List.mem_cons_of_mem _ ht)
    | nil =>
      exact ⟨Nat.zero_le 8, hl, tail_short env henv⟩

theorem queryEncoder__short (d : Driver) (env : Env) (cmd : String)
    (hbuf : ∀ t ∈ d.encoders_filt, t.length ≤ 8)
    (henv : ∀ b ∈ env, ∀ t ∈ b, isAnEncoderMsg t = true → t.length ≤ 8) :
    (queryEncoder_ d env cmd).result ≠ .error .length_error ∧
    (∀ t ∈ (queryEncoder_ d env cmd).driver.encoders_filt, t.length ≤ 8) ∧
    (∀ b ∈ (queryEncoder_ d env cmd).env, ∀ t ∈ b, isAnEncoderMsg t = true →
      t.length ≤ 8) := by
  have hl := listen_short (d.write cmd) (env.headD []) hbuf (headD_short env henv)
  have hw := wait_short (listen (d.write cmd) (env.headD [])) env.tail hl
    (tail_short env henv)
  by_cases h1 : cmd ∈ received d.listening (env.headD [])
  · simp only [queryEncoder_, issueCommand_eq, if_pos h1, Bool.not_true, Bool.false_eq_true,
      if_false]
    revert hw
    generalize wait (listen (d.write cmd) (env.headD [])) env.tail .encoders_filt = w
    rcases w with ⟨response, dw, envw⟩
    rintro ⟨hw1, hw2, hw3⟩
    dsimp only at hw1 hw2 hw3 ⊢
    split_ifs
    · exact ⟨by simp, hw2, hw3⟩
    · refine ⟨?_, hw2, hw3⟩
      rw [queryEncoder_parse_of_le _ hw1]
      simp
  · simp only [queryEncoder_, issueCommand_eq, if_neg h1]
    exact ⟨by simp, hl, tail_short env henv⟩

/-! ## More on `move_confirm`, `dispatch`, `sync_` and `connect` -/

theorem move_confirm_echo_gen (d : Driver) (env : Env) (frame fw : String)
    (hecho : frame ∈ received d.listening (env.headD [])) :
    move_confirm d env frame fw =
      ⟨afterConfirm d frame (env.headD []) (env.tail.headD []), env.tail.tail,
        match nextAckNak d.listening (env.tail.headD []) with
        | some t =>
          if t = "+" then .ok fw
          else if t = "-" then .error (.CommandFailedException "nak received, command failed")
          else .error (.CommandFailedException "did not receive an ack or nak")
        | none => .error (.CommandFailedException "did not receive an ack or nak")⟩ := by
  cases env with
  | nil => simp [received] at hecho
  | cons b1 env =>
    cases env with
    | cons b2 rest => exact move_confirm_echo d b1 b2 rest frame fw hecho
    | nil =>
      simp only [List.headD_cons] at hecho
      have hrec : received d.listening [] = [] := by simp [received]
      simp only [move_confirm, issueCommand_eq, List.headD_cons, List.tail_cons,
        if_pos hecho, wait_clear_ack_nak, listen_listening, write_listening, nextAckNak,
        afterConfirm, Bool.not_true, Bool.false_eq_true, if_false, List.headD_nil,
        List.tail_nil, hrec, List.filter_nil, List.head?_nil]
      have e1 : ("" : String) ≠ "+" := by decide
      have e2 : ("" : String) ≠ "-" := by decide
      simp only [if_pos e1, if_neg e2]
      congr 1
      refine (setBuffer_self _ _ _ ?_).symm
      simp only [Driver.buffer, listen_ack_nak_filt, listen_listening, write_listening,
        clear_listening, hrec, List.filter_nil, List.append_nil]
      rfl

theorem move_confirm_error_kind (d : Driver) (env : Env) (frame fw : String)
    (e : Exception) (h : (move_confirm d env frame fw).result = .error e) :
    ∃ what, e = .CommandFailedException what := by
  by_cases hecho : frame ∈ received d.listening (env.headD [])
  · rw [move_confirm_echo_gen d env frame fw hecho] at h
    simp only at h
    split at h
    · split_ifs at h <;> simp at h <;> exact ⟨_, h.symm⟩
    · simp at h; exact ⟨_, h.symm⟩
  · rw [move_confirm_no_echo d env frame fw hecho] at h
    simp at h; exact ⟨_, h.symm⟩

theorem dispatch_closed (d : Driver) (t : String) :
    dispatch d t =
      { d with
        encoders_filt := d.encoders_filt ++ [t].filter isAnEncoderMsg
        ack_nak_filt := d.ack_nak_filt ++ [t].filter isAckOrNak
        rc_msg_filter_ := d.rc_msg_filter_ ++ [t].filter (startsWith ":")
        watch_dog_calls := d.watch_dog_calls
          + (if d.watch_dog_callback then ([t].filter (exactly "W")).length else 0) } :=
  foldl_dispatch_eq [t] d

theorem toUnsignedChar_fabs_lt (x : ℚ) : toUnsignedChar_fabs x < 256 :=
  Nat.mod_lt _ (by norm_num)

theorem hex2_length (m : Nat) : (hex2 m).length = 2 := rfl

theorem connect_eq_sync (d : Driver) (env : Env) (port : String)
    (hc : d.connected_ = false) (hp : (if port ≠ "" then port else d.port_) ≠ "") :
    connect d env port = sync_ (connect_opened d port) env := by
  have hport : (if (!port.isEmpty) = true then { d with port_ := port } else d).port_.isEmpty
      = false := by
    by_cases h : port = ""
    · subst h
      have he : ("" : String).isEmpty = true := by decide
      simp only [he, Bool.not_true, Bool.false_eq_true, if_false]
      apply isEmpty_eq_false
      simpa using hp
    · have he : port.isEmpty = false := isEmpty_eq_false port h
      simp only [he, Bool.not_false, if_true]
  unfold connect
  rw [if_neg (by simp [hc])]
  simp only [hport, Bool.false_eq_true, if_false]
  rfl

@[simp] theorem connect_opened_connected (d : Driver) (port : String) :
    (connect_opened d port).connected_ = true := rfl

theorem connect_opened_synched (d : Driver) (port : String) :
    (connect_opened d port).synched_ = d.synched_ := by
  unfold connect_opened disconnect setupFilters_
  dsimp only
  split_ifs <;> split <;> rfl

theorem okProbe_frame (n : Nat) (d : Driver) (env : Env) :
    (okProbe n d env).2.1.connected_ = d.connected_ ∧
    (okProbe n d env).2.1.synched_ = d.synched_ := by
  induction n generalizing d env with
  | zero => simp [okProbe]
  | succ n ih =>
    rw [okProbe_succ]
    split_ifs with h
    · simp
    · obtain ⟨h1, h2⟩ := ih (listen (d.write "\r") (env.headD [])) env.tail
      rw [h1, h2]
      simp

theorem sync__outcome (d : Driver) (env : Env) :
    (sync_ d env).driver.connected_ = d.connected_ ∧
    ((sync_ d env).result = .ok () ∨
      ((∃ what, (sync_ d env).result = .error (.SynchronizationException what)) ∧
        (sync_ d env).driver.synched_ = false)) := by
  cases hs : d.synched_ with
  | true => simp [sync_, hs]
  | false =>
    cases hf : (received d.listening (env.headD [])).filter (startsWith ":") with
    | nil =>
      rw [sync__no_reset_ack d env hs hf]
      refine ⟨by simp, Or.inr ⟨⟨_, rfl⟩, by simpa using hs⟩⟩
    | cons t l =>
      cases env with
      | nil => simp [received] at hf
      | cons b0 env =>
        have hmem : t ∈ (received d.listening b0).filter (startsWith ":") := by
          simp only [List.headD_cons] at hf
          rw [hf]; exact List.mem_cons_self t l
        have hrc : ∃ t ∈ received d.listening b0, startsWith ":" t = true :=
          ⟨t, (List.mem_filter.mp hmem).1, (List.mem_filter.mp hmem).2⟩
        obtain ⟨h1, h2⟩ := okProbe_frame 10 (afterReset d b0) env
        rw [sync__of_reset_ack d b0 env hs hrc]
        split_ifs
        · exact ⟨by simpa using h1, Or.inl rfl⟩
        · refine ⟨by simpa using h1, Or.inr ⟨⟨_, rfl⟩, ?_⟩⟩
          show (okProbe 10 (afterReset d b0) env).2.1.synched_ = false
          rw [h2]; simpa using hs

/-! ## C1: encoder response decoding -/

theorem queryEncoder_parse_short_range (response : String) (h : response.length ≤ 8) :
    ∃ v, queryEncoder_parse response = .ok v ∧ -2 ^ 31 ≤ v ∧ v < 2 ^ 31 :=
  ⟨_, queryEncoder_parse_of_le response h, sscanfX_range _⟩

/-- C1 (as stated, refuted): the response "80" is decoded to 3968 (the text scanned is
"F80", one fill character having been inserted), which is neither the value
0x80 - 0x100000000 given by the specification nor the two's-complement value -128 of the
response padded to "FFFFFF80". -/
theorem queryEncoder_parse_80 :
    queryEncoder_parse "80" = .ok 3968 ∧
    queryEncoder_parse "80" ≠ .ok (0x80 - 0x100000000) ∧
    specPadded "80" = "FFFFFF80".data ∧
    queryEncoder_parse "80" ≠ .ok (specDecode "80") := by
  decide

/-- C1 (amended): for every response of 1 to 8 hexadecimal digits whose first digit is one
of 0-7, the decoded value is the two's-complement reading of the response left-padded with
`0` to exactly 8 digits, and it is the non-negative numeral value of the response; it is
what `queryEncoder_` returns when the query is echoed and that response arrives; "7F"
decodes to 127 and "00000001" to 1; every response of at most 8 characters is decoded,
and every decoded value lies in the signed 32-bit range. -/
theorem queryEncoder_parse_zero_fill (response : String) (c : Char)
    (hlen : response.length ≤ 8)
    (hhex : ∀ x ∈ response.data, (hexDigitValue x).isSome = true)
    (hfirst : response.data.head? = some c)
    (hc : c ∈ ['0', '1', '2', '3', '4', '5', '6', '7']) :
    specPadded response = List.replicate (8 - response.length) '0' ++ response.data ∧
    queryEncoder_parse response = .ok (specDecode response) ∧
    queryEncoder_parse response = .ok (hexNumeral response.data : Int) ∧
    (∀ (d : Driver) (cmd : String) (rest : Env), d.listening = true → d.encoders_filt = [] →
      cmd ≠ "" → isAnEncoderMsg cmd = false →
      (queryEncoder_ d ([cmd] :: [response] :: rest) cmd).result
        = .ok (specDecode response)) ∧
    queryEncoder_parse "7F" = .ok 127 ∧
    queryEncoder_parse "00000001" = .ok 1 ∧
    (∀ r : String, r.length ≤ 8 →
      ∃ v, queryEncoder_parse r = .ok v ∧ -2 ^ 31 ≤ v ∧ v < 2 ^ 31) ∧
    (∀ (r : String) (v : Int), queryEncoder_parse r = .ok v →
      -2 ^ 31 ≤ v ∧ v < 2 ^ 31) := by
  obtain ⟨cs⟩ := response
  cases cs with
  | nil => simp at hfirst
  | cons a cs =>
    simp only [List.head?_cons, Option.some.injEq] at hfirst
    subst hfirst
    have hlen' : cs.length + 1 ≤ 8 := by simpa [String.length] using hlen
    have hfill : specFill ⟨a :: cs⟩ = '0' := by
      simp only [specFill, List.head?_cons]
      rw [if_pos hc]
    have hfind : findsFirstOf (substr01 ⟨a :: cs⟩) "01234567" = true := by
      simp only [findsFirstOf, substr01, List.take_succ_cons, List.take_zero, List.any_cons,
        List.any_nil, Bool.or_false]
      simp only [List.mem_cons, List.mem_singleton, List.not_mem_nil, or_false] at hc
      rcases hc with h | h | h | h | h | h | h | h <;> subst h <;> decide
    have hmsg : isAnEncoderMsg ⟨a :: cs⟩ = true := by
      rw [isAnEncoderMsg_cons]
      simp only [List.mem_cons, List.mem_singleton, List.not_mem_nil, or_false] at hc
      rcases hc with h | h | h | h | h | h | h | h <;> subst h <;> decide
    have hne : (String.mk (a :: cs)) ≠ "" := by
      intro h
      have := congrArg String.data h
      simp at this
    have hpad : specPadded ⟨a :: cs⟩
        = List.replicate (8 - (String.mk (a :: cs)).length) '0' ++ (a :: cs) := by
      simp only [specPadded, hfill]
    -- the first digit is at most 7, so the numeral is below 2 ^ 31
    have ha7 : (hexDigitValue a).getD 0 ≤ 7 := by
      simp only [List.mem_cons, List.mem_singleton, List.not_mem_nil, or_false] at hc
      rcases hc with h | h | h | h | h | h | h | h <;> subst h <;> decide
    have hnum : hexNumeral (a :: cs) < 2 ^ 31 := by
      have h1 := foldl_hex_lt cs (16 * 0 + (hexDigitValue a).getD 0)
      have h2 : (16 * 0 + (hexDigitValue a).getD 0 + 1) * 16 ^ cs.length ≤ 8 * 16 ^ 7 := by
        apply Nat.mul_le_mul (by omega)
        exact Nat.pow_le_pow_right (by norm_num) (by omega)
      have h3 : hexNumeral (a :: cs)
          = cs.foldl (fun x c => 16 * x + (hexDigitValue c).getD 0)
              (16 * 0 + (hexDigitValue a).getD 0) := rfl
      have h4 : (8 : Nat) * 16 ^ 7 = 2 ^ 31 := by norm_num
      omega
    have hparse : queryEncoder_parse ⟨a :: cs⟩ = .ok (hexNumeral (a :: cs) : Int) := by
      have h0 : hexDigitValue '0' = some 0 := by decide
      have hscan : scanHex ('0' :: a :: cs) 0 false = some (hexNumeral (a :: cs)) := by
        conv_lhs => rw [scanHex]
        simp only [h0, Nat.mul_zero, Nat.add_zero]
        rw [scanHex_allHex (a :: cs) _ hhex]
        rfl
      rw [queryEncoder_parse_of_le _ hlen]
      simp only [hfind, if_true, sscanfX, hscan]
      rw [toSigned32_small _ hnum]
    have hspec : queryEncoder_parse ⟨a :: cs⟩ = .ok (specDecode ⟨a :: cs⟩) := by
      rw [hparse, specDecode, hpad, hexNumeral_replicate_zero]
      rw [toSigned32_small _ hnum]
    refine ⟨hpad, hspec, hparse, ?_, by decide, by decide, queryEncoder_parse_short_range,
      queryEncoder_parse_range⟩
    intro d cmd rest hl hb hcmd hnot
    rw [← hspec]
    exact (queryEncoder__answered d cmd ⟨a :: cs⟩ rest hl hb hcmd hnot hne hmsg).1

/-- C1 (amended), instance: the response "7F". -/
theorem queryEncoder_parse_zero_fill_witness :
    queryEncoder_parse "7F" = .ok (specDecode "7F") ∧
    queryEncoder_parse "7F" = .ok (hexNumeral "7F".data : Int) ∧
    specDecode "7F" = 127 :=
  ⟨(queryEncoder_parse_zero_fill "7F" '7' (by decide) (by decide) (by decide)
      (by decide)).2.1,
    (queryEncoder_parse_zero_fill "7F" '7' (by decide) (by decide) (by decide)
      (by decide)).2.2.1,
    by decide⟩

/-! ## C2: motion frames -/

theorem sprintf_02X_eq_hex2 (m : Nat) (hm : m ≤ 255) : sprintf_02X m = hex2 m := by
  interval_cases m <;> rfl

theorem toUnsignedChar_fabs_natCast (m : Nat) (hm : m ≤ 255) :
    toUnsignedChar_fabs (m : ℚ) = m := by
  unfold toUnsignedChar_fabs
  have h0 : ¬ ((m : ℚ) < 0) := not_lt.mpr (Nat.cast_nonneg m)
  rw [if_neg h0]
  have hf : Rat.floor (m : ℚ) = (m : Int) := @Int.floor_natCast ℚ _ _ m
  rw [hf, Int.toNat_natCast]
  exact Nat.mod_eq_of_lt (by omega)

theorem toUnsignedChar_fabs_neg (x : ℚ) :
    toUnsignedChar_fabs (-x) = toUnsignedChar_fabs x := by
  unfold toUnsignedChar_fabs
  rcases lt_trichotomy x 0 with h | h | h
  · have h1 : ¬ (-x < 0) := by linarith
    rw [if_neg h1, if_pos h]
  · subst h; simp
  · have h1 : -x < 0 := by linarith
    have h2 : ¬ (x < 0) := by linarith
    rw [if_pos h1, if_neg h2, neg_neg]

/-- C2: for every integer magnitude m in [0,255] and either sign, the speed frame is "!",
the letter (`a` when the input is negative, `A` otherwise), the two-digit uppercase
hexadecimal form of m and a carriage return; likewise the direction frame with `b`/`B`.
These are the frames `move` writes: the speed frame first, then at most the direction
frame. -/
theorem move_frames (m : Nat) (hm : m ≤ 255) (x : ℚ) (hx : x = (m : ℚ) ∨ x = -(m : ℚ)) :
    speedFrame x = "!" ++ (if x < 0 then "a" else "A") ++ hex2 m ++ "\r" ∧
    directionFrame x = "!" ++ (if x < 0 then "b" else "B") ++ hex2 m ++ "\r" ∧
    (∀ (d : Driver) (env : Env) (y : ℚ), d.connected_ = true →
      (move d env x y).driver.written = d.written ++ [speedFrame x] ∨
      (move d env x y).driver.written = d.written ++ [speedFrame x, directionFrame y]) ∧
    (∀ (d : Driver) (env : Env) (y : ℚ), d.connected_ = true →
      (move d env y x).driver.written = d.written ++ [speedFrame y] ∨
      (move d env y x).driver.written = d.written ++ [speedFrame y, directionFrame x]) := by
  have hbyte : toUnsignedChar_fabs x = m := by
    rcases hx with h | h
    · rw [h]; exact toUnsignedChar_fabs_natCast m hm
    · rw [h, toUnsignedChar_fabs_neg]; exact toUnsignedChar_fabs_natCast m hm
  refine ⟨?_, ?_, fun d env y hc => move_written_cases d env x y hc,
    fun d env y hc => move_written_cases d env y x hc⟩
  · unfold speedFrame
    simp only [hbyte, sprintf_02X_eq_hex2 m hm]
    by_cases hneg : x < 0
    · simp only [hneg, if_true]; rfl
    · simp only [hneg, if_false]; rfl
  · unfold directionFrame
    simp only [hbyte, sprintf_02X_eq_hex2 m hm]
    by_cases hneg : x < 0
    · simp only [hneg, if_true]; rfl
    · simp only [hneg, if_false]; rfl

/-- C2, instance: magnitude 10 with negative sign gives "!a0A" and "!b0A" plus carriage
return. -/
theorem move_frames_witness :
    speedFrame (-10) = "!" ++ (if (-10 : ℚ) < 0 then "a" else "A") ++ hex2 10 ++ "\r" ∧
    directionFrame (-10) = "!" ++ (if (-10 : ℚ) < 0 then "b" else "B") ++ hex2 10 ++ "\r" :=
  ⟨(move_frames 10 (by decide) (-10) (Or.inr (by norm_num))).1,
    (move_frames 10 (by decide) (-10) (Or.inr (by norm_num))).2.1⟩

/-! ## C3: the guard of `move` -/

/-- C3 (as stated, refuted): a driver whose handshake failed is Connected but not
Synchronized; `move` on it is not rejected by the guard: it writes the speed frame, and
with a cooperating token source it succeeds. -/
theorem move_connected_not_synchronized :
    (connect Driver.init [] "/dev/ttyS0").driver.state = State.Connected ∧
    (move (connect Driver.init [] "/dev/ttyS0").driver [] 0 0).driver.written
      = ["%rrrrrr\r", "!A00\r"] ∧
    (move (connect Driver.init [] "/dev/ttyS0").driver [] 0 0).result
      ≠ .error (.CommandFailedException "must be connected to move") ∧
    (move (connect Driver.init [] "/dev/ttyS0").driver
      [["!A00\r"], ["+"], ["!B00\r"], ["+"]] 0 0).result = .ok () := by
  decide

/-- C3 (amended): in the Disconnected state, whatever the synchronized flag, `move` fails
with CommandError("must be connected to move") for all inputs, writes nothing and leaves
the driver and the token source as they were. -/
theorem move_disconnected (d : Driver) (env : Env) (speed direction : ℚ)
    (h : d.state = State.Disconnected) :
    (move d env speed direction).result
      = .error (.CommandFailedException "must be connected to move") ∧
    (move d env speed direction).driver = d ∧
    (move d env speed direction).driver.written = d.written ∧
    (move d env speed direction).env = env := by
  have hc : d.connected_ = false := by
    unfold Driver.state at h
    cases hcon : d.connected_ with
    | false => rfl
    | true =>
      rw [hcon] at h
      simp only [if_true] at h
      split_ifs at h
  simp [move, hc]

/-- C3 (amended), instance: the freshly constructed driver. -/
theorem move_disconnected_witness :
    (move Driver.init [["!A05\r"], ["+"]] 5 0).result
      = .error (.CommandFailedException "must be connected to move") ∧
    (move Driver.init [["!A05\r"], ["+"]] 5 0).driver = Driver.init ∧
    (move Driver.init [["!A05\r"], ["+"]] 5 0).driver.written = Driver.init.written ∧
    (move Driver.init [["!A05\r"], ["+"]] 5 0).env = [["!A05\r"], ["+"]] :=
  move_disconnected Driver.init [["!A05\r"], ["+"]] 5 0 (by decide)

/-! ## C4: `queryEncoders` has no guard -/

/-- C4 (code at the failing inputs): on a freshly constructed driver `queryEncoders` goes
on to write the first query; on a driver whose connect failed in the handshake it writes
both queries and, the tokens arriving, returns the decoded values. -/
theorem queryEncoders_unguarded :
    (queryEncoders Driver.init [] 0 0 false).driver.written = ["?q0\r"] ∧
    (queryEncoders Driver.init [] 0 0 true).driver.written = ["?q4\r"] ∧
    (connect Driver.init [] "/dev/ttyS0").result
      = .error (.SynchronizationException "did not receive an R/C message after reset") ∧
    (queryEncoders (connect Driver.init [] "/dev/ttyS0").driver
      [["?q0\r", "7F"], ["?q1\r", "1"]] 0 0 false).driver.written
      = ["%rrrrrr\r", "?q0\r", "?q1\r"] ∧
    (queryEncoders (connect Driver.init [] "/dev/ttyS0").driver
      [["?q0\r", "7F"], ["?q1\r", "1"]] 0 0 false).result = .ok () ∧
    (queryEncoders (connect Driver.init [] "/dev/ttyS0").driver
      [["?q0\r", "7F"], ["?q1\r", "1"]] 0 0 false).encoder1 = 127 := by
  decide

/-! ## C5: ack and nak in `move` -/

/-- C5: with the speed frame echoed, a first ack/nak token "-" in the following wait fails
the call with "nak received, command failed"; anything else than "+" or "-", or no token,
fails it with "did not receive an ack or nak"; "+" lets the call go on to write the
direction frame, for which, once echoed, the same three cases hold, the call succeeding
when both frames get "+". -/
theorem move_ack_nak (d : Driver) (speed direction : ℚ) (b1 b2 : List String) (rest : Env)
    (hc : d.connected_ = true) (hecho : speedFrame speed ∈ received d.listening b1) :
    (nextAckNak d.listening b2 = some "-" →
      (move d (b1 :: b2 :: rest) speed direction).result
        = .error (.CommandFailedException "nak received, command failed")) ∧
    (nextAckNak d.listening b2 ≠ some "+" → nextAckNak d.listening b2 ≠ some "-" →
      (move d (b1 :: b2 :: rest) speed direction).result
        = .error (.CommandFailedException "did not receive an ack or nak")) ∧
    (nextAckNak d.listening b2 = some "+" →
      (move d (b1 :: b2 :: rest) speed direction).driver.written
        = d.written ++ [speedFrame speed, directionFrame direction] ∧
      ∀ (b3 b4 : List String) (rest' : Env), rest = b3 :: b4 :: rest' →
        directionFrame direction ∈ received d.listening b3 →
        (nextAckNak d.listening b4 = some "-" →
          (move d (b1 :: b2 :: rest) speed direction).result
            = .error (.CommandFailedException "nak received, command failed")) ∧
        (nextAckNak d.listening b4 ≠ some "+" → nextAckNak d.listening b4 ≠ some "-" →
          (move d (b1 :: b2 :: rest) speed direction).result
            = .error (.CommandFailedException "did not receive an ack or nak")) ∧
        (nextAckNak d.listening b4 = some "+" →
          (move d (b1 :: b2 :: rest) speed direction).result = .ok ())) := by
  have hguard : (!d.connected_) = false := by simp [hc]
  simp only [move, hguard, Bool.false_eq_true, if_false,
    move_confirm_echo d b1 b2 rest _ _ hecho]
  refine ⟨?_, ?_, ?_⟩
  · intro h
    simp [h]
  · intro h1 h2
    cases h : nextAckNak d.listening b2 with
    | none => simp
    | some t =>
      have t1 : t ≠ "+" := fun e => h1 (by rw [h, e])
      have t2 : t ≠ "-" := fun e => h2 (by rw [h, e])
      simp [t1, t2]
  · intro h
    simp only [h, if_true]
    constructor
    · have hw := move_confirm_written (afterConfirm d (speedFrame speed) b1 b2) rest
        (directionFrame direction) ""
      revert hw
      generalize move_confirm (afterConfirm d (speedFrame speed) b1 b2) rest
        (directionFrame direction) "" = o
      intro hw
      rcases o with ⟨d', env', e | v⟩ <;> simpa using hw
    · intro b3 b4 rest' hrest hecho2
      subst hrest
      have hecho2' : directionFrame direction
          ∈ received (afterConfirm d (speedFrame speed) b1 b2).listening b3 := by
        simpa using hecho2
      simp only [move_confirm_echo _ b3 b4 rest' _ _ hecho2', afterConfirm_listening]
      refine ⟨?_, ?_, ?_⟩
      · intro h; simp [h]
      · intro h1 h2
        cases h : nextAckNak d.listening b4 with
        | none => simp
        | some t =>
          have t1 : t ≠ "+" := fun e => h1 (by rw [h, e])
          have t2 : t ≠ "-" := fun e => h2 (by rw [h, e])
          simp [t1, t2]
      · intro h; simp [h]

/-- C5, instance: a synchronized driver, both frames echoed and acknowledged with "+". -/
theorem move_ack_nak_witness :
    (connect Driver.init [[":R/C"], ["OK"]] "/dev/ttyS0").driver.connected_ = true ∧
    (move (connect Driver.init [[":R/C"], ["OK"]] "/dev/ttyS0").driver
      [["!A05\r"], ["+"], ["!b0A\r"], ["+"]] 5 (-10)).result = .ok () :=
  ⟨by decide,
    ((((move_ack_nak (connect Driver.init [[":R/C"], ["OK"]] "/dev/ttyS0").driver 5 (-10)
      ["!A05\r"] ["+"] [["!b0A\r"], ["+"]] (by decide) (by decide)).2.2 (by decide)).2
        ["!b0A\r"] ["+"] [] rfl (by decide)).2.2 (by decide))⟩

/-! ## C6: the probe loop is bounded -/

/-- C6: once the reset acknowledgment has been received, a token source that never
delivers "OK" makes `sync_` write the carriage-return probe exactly 10 times after the
reset sequence and fail with a SynchronizationError, the driver staying not Synchronized;
and in every run of `sync_` the probes written number at most 10. -/
theorem sync__probe_exhausted (d : Driver) (b0 : List String) (env : Env)
    (hs : d.synched_ = false)
    (hrc : ∃ t ∈ received d.listening b0, startsWith ":" t = true)
    (hno : ∀ b ∈ env, "OK" ∉ b) :
    (sync_ d (b0 :: env)).result
      = .error (.SynchronizationException "failed to get into serial mode") ∧
    (sync_ d (b0 :: env)).driver.written
      = d.written ++ "%rrrrrr\r" :: List.replicate 10 "\r" ∧
    (sync_ d (b0 :: env)).driver.synched_ = false ∧
    (sync_ d (b0 :: env)).driver.state ≠ State.Synchronized ∧
    ∀ (d' : Driver) (env' : Env), ∃ k, k ≤ 10 ∧
      ((sync_ d' env').driver.written = d'.written ∨
        (sync_ d' env').driver.written
          = d'.written ++ "%rrrrrr\r" :: List.replicate k "\r") := by
  have hno' : ∀ b ∈ env, "OK" ∉ received (afterReset d b0).listening b :=
    fun b hb hmem => hno b hb (received_subset _ _ _ hmem)
  obtain ⟨h1, h2, h3, _, _⟩ := okProbe_no_ok 10 (afterReset d b0) env hno'
  have hsync : sync_ d (b0 :: env) =
      ⟨(okProbe 10 (afterReset d b0) env).2.1, (okProbe 10 (afterReset d b0) env).2.2,
        .error (.SynchronizationException "failed to get into serial mode")⟩ := by
    rw [sync__of_reset_ack d b0 env hs hrc, h1]
    rfl
  have hsy : (okProbe 10 (afterReset d b0) env).2.1.synched_ = false := by
    rw [h3]; simpa using hs
  rw [hsync]
  refine ⟨rfl, ?_, hsy, ?_, sync__probe_bound⟩
  · show (okProbe 10 (afterReset d b0) env).2.1.written = _
    rw [h2]; simp
  · intro hst
    simp only [Driver.state, hsy, Bool.false_eq_true, if_false] at hst
    split_ifs at hst

/-- C6, instance: a listening driver, the reset acknowledged, then silence. -/
theorem sync__probe_exhausted_witness :
    (sync_ { Driver.init with listening := true } [[":R/C"]]).result
      = .error (.SynchronizationException "failed to get into serial mode") ∧
    (sync_ { Driver.init with listening := true } [[":R/C"]]).driver.written
      = "%rrrrrr\r" :: List.replicate 10 "\r" :=
  ⟨(sync__probe_exhausted { Driver.init with listening := true } [":R/C"] [] rfl
      ⟨":R/C", by decide, by decide⟩ (by simp)).1,
    (sync__probe_exhausted { Driver.init with listening := true } [":R/C"] [] rfl
      ⟨":R/C", by decide, by decide⟩ (by simp)).2.1⟩

/-! ## C7: a successful handshake -/

/-- C7: if the reset acknowledgment is received and the first "OK" arrives in the wait of
probe number k = `pre.length + 1` (1 ≤ k ≤ 10), `sync_` writes the reset sequence once and
then exactly k carriage-return probes, sets the synchronized flag (the state being
Synchronized for a connected driver) and passes exactly one message to the info sink. -/
theorem sync__ok_at_probe (d : Driver) (b0 : List String) (pre : List (List String))
    (okb : List String) (rest : Env)
    (hs : d.synched_ = false)
    (hrc : ∃ t ∈ received d.listening b0, startsWith ":" t = true)
    (hk : pre.length < 10)
    (hpre : ∀ b ∈ pre, "OK" ∉ received d.listening b)
    (hok : "OK" ∈ received d.listening okb) :
    (sync_ d (b0 :: (pre ++ okb :: rest))).result = .ok () ∧
    (sync_ d (b0 :: (pre ++ okb :: rest))).driver.written
      = d.written ++ "%rrrrrr\r" :: List.replicate (pre.length + 1) "\r" ∧
    (sync_ d (b0 :: (pre ++ okb :: rest))).driver.synched_ = true ∧
    (d.connected_ = true →
      (sync_ d (b0 :: (pre ++ okb :: rest))).driver.state = State.Synchronized) ∧
    (sync_ d (b0 :: (pre ++ okb :: rest))).driver.infos
      = d.infos ++ ["Synchronized with the ax2550"] ∧
    (sync_ d (b0 :: (pre ++ okb :: rest))).env = rest := by
  obtain ⟨h1, h2, h3, _, h5, h6⟩ := okProbe_found 10 (afterReset d b0) pre okb rest hk
    (by simpa using hpre) (by simpa using hok)
  have hsync : sync_ d (b0 :: (pre ++ okb :: rest)) =
      ⟨{ (okProbe 10 (afterReset d b0) (pre ++ okb :: rest)).2.1 with
          synched_ := true
          infos := (okProbe 10 (afterReset d b0) (pre ++ okb :: rest)).2.1.infos
            ++ ["Synchronized with the ax2550"] },
        (okProbe 10 (afterReset d b0) (pre ++ okb :: rest)).2.2, .ok ()⟩ := by
    rw [sync__of_reset_ack d b0 _ hs hrc, h1]
    rfl
  rw [hsync]
  refine ⟨rfl, ?_, rfl, ?_, ?_, h2⟩
  · show (okProbe 10 (afterReset d b0) (pre ++ okb :: rest)).2.1.written = _
    rw [h3]; simp
  · intro hc
    simp [Driver.state, h6, hc]
  · show (okProbe 10 (afterReset d b0) (pre ++ okb :: rest)).2.1.infos ++ _ = _
    rw [h5]; simp

/-- C7, instance: the "OK" arrives in the wait of the third probe. -/
theorem sync__ok_at_probe_witness :
    (sync_ { Driver.init with listening := true, connected_ := true }
      [[":R/C"], [], ["W"], ["OK"], ["+"]]).result = .ok () ∧
    (sync_ { Driver.init with listening := true, connected_ := true }
      [[":R/C"], [], ["W"], ["OK"], ["+"]]).driver.written
      = "%rrrrrr\r" :: List.replicate 3 "\r" ∧
    (sync_ { Driver.init with listening := true, connected_ := true }
      [[":R/C"], [], ["W"], ["OK"], ["+"]]).driver.state = State.Synchronized ∧
    (sync_ { Driver.init with listening := true, connected_ := true }
      [[":R/C"], [], ["W"], ["OK"], ["+"]]).driver.infos = ["Synchronized with the ax2550"] :=
  ⟨(sync__ok_at_probe { Driver.init with listening := true, connected_ := true } [":R/C"]
      [[], ["W"]] ["OK"] [["+"]] rfl ⟨":R/C", by decide, by decide⟩ (by decide) (by decide)
      (by decide)).1,
    (sync__ok_at_probe { Driver.init with listening := true, connected_ := true } [":R/C"]
      [[], ["W"]] ["OK"] [["+"]] rfl ⟨":R/C", by decide, by decide⟩ (by decide) (by decide)
      (by decide)).2.1,
    (sync__ok_at_probe { Driver.init with listening := true, connected_ := true } [":R/C"]
      [[], ["W"]] ["OK"] [["+"]] rfl ⟨":R/C", by decide, by decide⟩ (by decide) (by decide)
      (by decide)).2.2.2.1 rfl,
    (sync__ok_at_probe { Driver.init with listening := true, connected_ := true } [":R/C"]
      [[], ["W"]] ["OK"] [["+"]] rfl ⟨":R/C", by decide, by decide⟩ (by decide) (by decide)
      (by decide)).2.2.2.2.1⟩

/-! ## C8: `disconnect` -/

/-- C8: from every driver state `disconnect` (which has no error path) leaves the state
Disconnected, the transport handle released and the listener stopped, and a second
`disconnect` right after yields exactly the same driver state as the first. -/
theorem disconnect_idempotent (d : Driver) :
    (disconnect d).state = State.Disconnected ∧
    (disconnect d).connected_ = false ∧
    (disconnect d).serial_port_ = none ∧
    (disconnect d).listening = false ∧
    (disconnect d).written = d.written ∧
    disconnect (disconnect d) = disconnect d ∧
    (disconnect (disconnect d)).state = State.Disconnected := by
  have h : ∀ e : Driver, (disconnect e).connected_ = false ∧ (disconnect e).serial_port_ = none
      ∧ (disconnect e).listening = false ∧ (disconnect e).written = e.written := by
    intro e
    unfold disconnect
    cases hp : e.serial_port_ <;> simp [hp]
  have hst : ∀ e : Driver, (disconnect e).state = State.Disconnected := by
    intro e
    simp [Driver.state, (h e).1]
  refine ⟨hst d, (h d).1, (h d).2.1, (h d).2.2.1, (h d).2.2.2, ?_, hst _⟩
  unfold disconnect
  cases hp : d.serial_port_ <;> simp [hp]

/-! ## C9: the guards of `connect` -/

/-- C9: `connect` fails with a ConnectionError when the driver is already connected, and
when the resolved port identifier (the argument if non-empty, otherwise the stored port)
is empty; in both cases the driver (flags, transport handle, write trace and all) and the
token source are left exactly as they were. -/
theorem connect_rejected (d : Driver) (env : Env) (port : String)
    (h : d.connected_ = true ∨ (if port ≠ "" then port else d.port_) = "") :
    (∃ what, (connect d env port).result = .error (.ConnectionException what)) ∧
    (d.connected_ = true →
      (connect d env port).result = .error (.ConnectionException "already connected")) ∧
    (d.connected_ = false →
      (connect d env port).result
        = .error (.ConnectionException "serial port name is empty")) ∧
    (connect d env port).driver = d ∧
    (connect d env port).driver.written = d.written ∧
    (connect d env port).env = env := by
  cases hc : d.connected_ with
  | true => simp [connect, hc]
  | false =>
    have hp : (if port ≠ "" then port else d.port_) = "" := by
      rcases h with h | h
      · rw [hc] at h; cases h
      · exact h
    have hport : port = "" := by
      by_contra hne
      rw [if_pos hne] at hp
      exact hne hp
    subst hport
    have hstored : d.port_ = "" := by simpa using hp
    have he : ("" : String).isEmpty = true := by decide
    simp [connect, hc, he, hstored]

/-- C9, instance: a second connect on a connected driver. -/
theorem connect_rejected_witness :
    (connect (connect Driver.init [[":R/C"], ["OK"]] "/dev/ttyS0").driver [[":R/C"], ["OK"]]
      "/dev/ttyS1").result = .error (.ConnectionException "already connected") ∧
    (connect (connect Driver.init [[":R/C"], ["OK"]] "/dev/ttyS0").driver [[":R/C"], ["OK"]]
      "/dev/ttyS1").driver = (connect Driver.init [[":R/C"], ["OK"]] "/dev/ttyS0").driver :=
  ⟨(connect_rejected (connect Driver.init [[":R/C"], ["OK"]] "/dev/ttyS0").driver
      [[":R/C"], ["OK"]] "/dev/ttyS1" (Or.inl (by decide))).2.1 (by decide),
    (connect_rejected (connect Driver.init [[":R/C"], ["OK"]] "/dev/ttyS0").driver
      [[":R/C"], ["OK"]] "/dev/ttyS1" (Or.inl (by decide))).2.2.2.1⟩

/-! ## C10: `issueCommand` -/

/-- C10: for every command text `issueCommand` (which returns a flag and a reason, and has
no error path) writes exactly that text, once; it returns success exactly when a token
equal to the command text is received within the echo wait, leaving the caller's reason
untouched, and otherwise returns failure with the reason "failed to receive an echo". -/
theorem issueCommand_contract (d : Driver) (env : Env) (command fail_why : String) :
    (issueCommand d env command fail_why).2.2.1.written = d.written ++ [command] ∧
    ((issueCommand d env command fail_why).1 = true
      ↔ command ∈ received d.listening (env.headD [])) ∧
    ((issueCommand d env command fail_why).1 = true
      → (issueCommand d env command fail_why).2.1 = fail_why) ∧
    ((issueCommand d env command fail_why).1 = false
      → (issueCommand d env command fail_why).2.1 = "failed to receive an echo") ∧
    (issueCommand d env command fail_why).2.2.2 = env.tail := by
  rw [issueCommand_eq]
  generalize List.headD env [] = batch
  split_ifs with h <;> simp [h]

/-! ## C11: the four encoder queries -/

/-- C11: when every query is echoed and answered (each response a single encoder token of
at most 8 characters, the longest the decoding accepts), `queryEncoders(false)` writes
exactly "?q0" then "?q1" (each with its carriage return) and `queryEncoders(true)` writes
exactly "?q4" then "?q5"; both calls return normally; the value decoded from the response
to the first query is returned as `encoder1` and that of the second as `encoder2`; and
`queryEncoders(false)` followed by `queryEncoders(true)` writes exactly these four
distinct texts, in that order. -/
theorem queryEncoders_round_trip (d : Driver) (e1 e2 : Int)
    (be0 ba0 be1 ba1 be4 ba4 be5 ba5 : List String) (rest : Env) (r0 r1 r4 r5 : String)
    (h0 : Answered d.listening "?q0\r" be0 ba0 r0)
    (h1 : Answered d.listening "?q1\r" be1 ba1 r1)
    (h4 : Answered d.listening "?q4\r" be4 ba4 r4)
    (h5 : Answered d.listening "?q5\r" be5 ba5 r5) :
    (queryEncoders d (be0 :: ba0 :: be1 :: ba1 :: rest) e1 e2 false).result = .ok () ∧
    (queryEncoders d (be0 :: ba0 :: be1 :: ba1 :: rest) e1 e2 false).driver.written
      = d.written ++ ["?q0\r", "?q1\r"] ∧
    queryEncoder_parse r0
      = .ok (queryEncoders d (be0 :: ba0 :: be1 :: ba1 :: rest) e1 e2 false).encoder1 ∧
    queryEncoder_parse r1
      = .ok (queryEncoders d (be0 :: ba0 :: be1 :: ba1 :: rest) e1 e2 false).encoder2 ∧
    (queryEncoders d (be4 :: ba4 :: be5 :: ba5 :: rest) e1 e2 true).result = .ok () ∧
    (queryEncoders d (be4 :: ba4 :: be5 :: ba5 :: rest) e1 e2 true).driver.written
      = d.written ++ ["?q4\r", "?q5\r"] ∧
    queryEncoder_parse r4
      = .ok (queryEncoders d (be4 :: ba4 :: be5 :: ba5 :: rest) e1 e2 true).encoder1 ∧
    queryEncoder_parse r5
      = .ok (queryEncoders d (be4 :: ba4 :: be5 :: ba5 :: rest) e1 e2 true).encoder2 ∧
    (∀ o : EncodersOutcome,
      o = queryEncoders d
        (be0 :: ba0 :: be1 :: ba1 :: be4 :: ba4 :: be5 :: ba5 :: rest) e1 e2 false →
      o.result = .ok () ∧
      (queryEncoders o.driver o.env o.encoder1 o.encoder2 true).result = .ok () ∧
      (queryEncoders o.driver o.env o.encoder1 o.encoder2 true).driver.written
        = d.written ++ ["?q0\r", "?q1\r", "?q4\r", "?q5\r"] ∧
      queryEncoder_parse r4
        = .ok (queryEncoders o.driver o.env o.encoder1 o.encoder2 true).encoder1 ∧
      queryEncoder_parse r5
        = .ok (queryEncoders o.driver o.env o.encoder1 o.encoder2 true).encoder2) ∧
    ["?q0\r", "?q1\r", "?q4\r", "?q5\r"].Nodup := by
  have A := queryEncoders_answered d e1 e2 false be0 ba0 be1 ba1 rest r0 r1 h0 h1
  have B := queryEncoders_answered d e1 e2 true be4 ba4 be5 ba5 rest r4 r5 h4 h5
  refine ⟨A.1, A.2.2.2.2.1, A.2.1, A.2.2.1, B.1, B.2.2.2.2.1, B.2.1, B.2.2.1, ?_,
    by decide⟩
  intro o ho
  have C := queryEncoders_answered d e1 e2 false be0 ba0 be1 ba1
    (be4 :: ba4 :: be5 :: ba5 :: rest) r0 r1 h0 h1
  rw [← ho] at C
  obtain ⟨c1, -, -, c4, c5, c6⟩ := C
  have D := queryEncoders_answered o.driver o.encoder1 o.encoder2 true be4 ba4 be5 ba5 rest
    r4 r5 (by rw [c6]; exact h4) (by rw [c6]; exact h5)
  rw [c4]
  refine ⟨c1, D.1, ?_, D.2.1, D.2.2.1⟩
  rw [D.2.2.2.2.1, c5]
  simp [firstQuery, secondQuery]

/-- C11, instance: the four queries echoed and answered with "7F", "1", "2" and "3". -/
theorem queryEncoders_round_trip_witness :
    (queryEncoders { Driver.init with listening := true }
      [["?q0\r"], ["7F"], ["?q1\r"], ["1"]] 0 0 false).driver.written
      = [] ++ ["?q0\r", "?q1\r"] ∧
    queryEncoder_parse "7F"
      = .ok (queryEncoders { Driver.init with listening := true }
          [["?q0\r"], ["7F"], ["?q1\r"], ["1"]] 0 0 false).encoder1 ∧
    (queryEncoders { Driver.init with listening := true }
      [["?q4\r"], ["2"], ["?q5\r"], ["3"]] 0 0 true).driver.written
      = [] ++ ["?q4\r", "?q5\r"] :=
  ⟨(queryEncoders_round_trip { Driver.init with listening := true } 0 0
      ["?q0\r"] ["7F"] ["?q1\r"] ["1"] ["?q4\r"] ["2"] ["?q5\r"] ["3"] [] "7F" "1" "2" "3"
      ⟨by decide, by decide, by decide, by decide⟩
      ⟨by decide, by decide, by decide, by decide⟩
      ⟨by decide, by decide, by decide, by decide⟩
      ⟨by decide, by decide, by decide, by decide⟩).2.1,
    (queryEncoders_round_trip { Driver.init with listening := true } 0 0
      ["?q0\r"] ["7F"] ["?q1\r"] ["1"] ["?q4\r"] ["2"] ["?q5\r"] ["3"] [] "7F" "1" "2" "3"
      ⟨by decide, by decide, by decide, by decide⟩
      ⟨by decide, by decide, by decide, by decide⟩
      ⟨by decide, by decide, by decide, by decide⟩
      ⟨by decide, by decide, by decide, by decide⟩).2.2.1,
    (queryEncoders_round_trip { Driver.init with listening := true } 0 0
      ["?q0\r"] ["7F"] ["?q1\r"] ["1"] ["?q4\r"] ["2"] ["?q5\r"] ["3"] [] "7F" "1" "2" "3"
      ⟨by decide, by decide, by decide, by decide⟩
      ⟨by decide, by decide, by decide, by decide⟩
      ⟨by decide, by decide, by decide, by decide⟩
      ⟨by decide, by decide, by decide, by decide⟩).2.2.2.2.2.1⟩

/-! ## C12: no reset acknowledgment -/

/-- C12 (as stated, refuted): with no `:`-prefixed token in the reset-acknowledgment wait
the text of the SynchronizationError is "did not receive an R/C message after reset",
not "no R/C message after reset". -/
theorem sync__no_rc_message_text :
    (sync_ { Driver.init with listening := true } [["OK"], [":R/C"]]).result
      = .error (.SynchronizationException "did not receive an R/C message after reset") ∧
    (sync_ { Driver.init with listening := true } [["OK"], [":R/C"]]).result
      ≠ .error (.SynchronizationException "no R/C message after reset") := by
  decide

/-- C12 (amended): if no token matching the `:`-prefix subscription arrives within the
reset-acknowledgment wait, `sync_` fails with
SynchronizationError("did not receive an R/C message after reset"), having written only
the reset sequence (no carriage-return probe) and leaving the driver not Synchronized. -/
theorem sync__no_reset_acknowledgment (d : Driver) (env : Env) (hs : d.synched_ = false)
    (hno : ∀ t ∈ received d.listening (env.headD []), startsWith ":" t = false) :
    (sync_ d env).result
      = .error (.SynchronizationException "did not receive an R/C message after reset") ∧
    (sync_ d env).driver.written = d.written ++ ["%rrrrrr\r"] ∧
    "\r" ∉ (sync_ d env).driver.written.drop d.written.length ∧
    (sync_ d env).driver.synched_ = false ∧
    (sync_ d env).driver.state ≠ State.Synchronized ∧
    (sync_ d env).env = env.tail := by
  have hf : (received d.listening (env.headD [])).filter (startsWith ":") = [] := by
    rw [List.filter_eq_nil_iff]
    intro t ht
    rw [hno t ht]
    simp
  rw [sync__no_reset_ack d env hs hf]
  have hw : (listen ((d.write "%rrrrrr\r").clear .rc_msg_filter_) (env.headD [])).written
      = d.written ++ ["%rrrrrr\r"] := by simp
  have hsy : (listen ((d.write "%rrrrrr\r").clear .rc_msg_filter_) (env.headD [])).synched_
      = false := by simpa using hs
  refine ⟨rfl, hw, ?_, hsy, ?_, rfl⟩
  · show "\r" ∉ List.drop d.written.length
      (listen ((d.write "%rrrrrr\r").clear .rc_msg_filter_) (env.headD [])).written
    rw [hw, List.drop_left]
    decide
  · intro hst
    have hst' : (listen ((d.write "%rrrrrr\r").clear .rc_msg_filter_)
        (env.headD [])).state = State.Synchronized := hst
    simp only [Driver.state, hsy, Bool.false_eq_true, if_false] at hst'
    split_ifs at hst'

/-- C12 (amended), instance: an "OK" and a watchdog token arrive, the acknowledgment comes
too late. -/
theorem sync__no_reset_acknowledgment_witness :
    (sync_ { Driver.init with listening := true } [["OK", "W"], [":R/C"]]).result
      = .error (.SynchronizationException "did not receive an R/C message after reset") ∧
    (sync_ { Driver.init with listening := true } [["OK", "W"], [":R/C"]]).driver.written
      = [] ++ ["%rrrrrr\r"] :=
  ⟨(sync__no_reset_acknowledgment { Driver.init with listening := true }
      [["OK", "W"], [":R/C"]] rfl (by decide)).1,
    (sync__no_reset_acknowledgment { Driver.init with listening := true }
      [["OK", "W"], [":R/C"]] rfl (by decide)).2.1⟩

/-! ## C13: the watchdog handler -/

/-- C13: on a watchdog token `watchDogCallback_` invokes the user's watchdog callback
exactly once if one is set and otherwise does nothing; in both cases the connection state
and the write trace are unchanged.  The delivery of the token "W" runs the handler once;
no other token runs it. -/
theorem watchDogCallback__effect (d : Driver) (token : String) :
    (watchDogCallback_ d token).watch_dog_calls
      = d.watch_dog_calls + (if d.watch_dog_callback then 1 else 0) ∧
    (d.watch_dog_callback = false → watchDogCallback_ d token = d) ∧
    watchDogCallback_ d token = { d with watch_dog_calls := d.watch_dog_calls
      + (if d.watch_dog_callback then 1 else 0) } ∧
    (watchDogCallback_ d token).written = d.written ∧
    (watchDogCallback_ d token).connected_ = d.connected_ ∧
    (watchDogCallback_ d token).synched_ = d.synched_ ∧
    (watchDogCallback_ d token).serial_port_ = d.serial_port_ ∧
    (watchDogCallback_ d token).listening = d.listening ∧
    (dispatch d "W").watch_dog_calls = (watchDogCallback_ d "W").watch_dog_calls ∧
    (dispatch d "W").written = d.written ∧
    (dispatch d "W").connected_ = d.connected_ ∧
    (dispatch d "W").synched_ = d.synched_ ∧
    (dispatch d "W").serial_port_ = d.serial_port_ ∧
    (∀ t : String, t ≠ "W" → (dispatch d t).watch_dog_calls = d.watch_dog_calls) := by
  have hW : exactly "W" "W" = true := by decide
  have hnW : ∀ t : String, t ≠ "W" → exactly "W" t = false := by
    intro t ht
    simpa [exactly] using ht
  refine ⟨?_, ?_, ?_, ?_, ?_, ?_, ?_, ?_, ?_, ?_, ?_, ?_, ?_, ?_⟩
  · unfold watchDogCallback_; split_ifs <;> simp
  · intro h; unfold watchDogCallback_; simp [h]
  · unfold watchDogCallback_; split_ifs <;> simp
  · unfold watchDogCallback_; split_ifs <;> rfl
  · unfold watchDogCallback_; split_ifs <;> rfl
  · unfold watchDogCallback_; split_ifs <;> rfl
  · unfold watchDogCallback_; split_ifs <;> rfl
  · unfold watchDogCallback_; split_ifs <;> rfl
  · rw [dispatch_closed]
    unfold watchDogCallback_
    split_ifs <;> simp [hW]
  · rw [dispatch_closed]
  · rw [dispatch_closed]
  · rw [dispatch_closed]
  · rw [dispatch_closed]
  · intro t ht
    rw [dispatch_closed]
    simp [hnW t ht]

/-! ## C14: no rollback in `move` -/

/-- C14: if the speed frame is echoed and acknowledged with "+" but the direction frame
fails (it is not echoed, or its ack/nak wait does not bring "+"), the call fails with a
CommandError and the writes of the call are exactly the speed frame followed by the
direction frame: nothing is written after the failure. -/
theorem move_no_rollback (d : Driver) (speed direction : ℚ) (b1 b2 : List String)
    (rest : Env)
    (hc : d.connected_ = true) (hecho : speedFrame speed ∈ received d.listening b1)
    (hack : nextAckNak d.listening b2 = some "+")
    (hdir : directionFrame direction ∉ received d.listening (rest.headD []) ∨
      nextAckNak d.listening (rest.tail.headD []) ≠ some "+") :
    (∃ what, (move d (b1 :: b2 :: rest) speed direction).result
      = .error (.CommandFailedException what)) ∧
    (move d (b1 :: b2 :: rest) speed direction).driver.written
      = d.written ++ [speedFrame speed, directionFrame direction] := by
  have hguard : (!d.connected_) = false := by simp [hc]
  simp only [move, hguard, Bool.false_eq_true, if_false,
    move_confirm_echo d b1 b2 rest _ _ hecho, hack, if_true]
  have hw := move_confirm_written (afterConfirm d (speedFrame speed) b1 b2) rest
    (directionFrame direction) ""
  have hk := move_confirm_error_kind (afterConfirm d (speedFrame speed) b1 b2) rest
    (directionFrame direction) ""
  have hnot : ∀ v, (move_confirm (afterConfirm d (speedFrame speed) b1 b2) rest
      (directionFrame direction) "").result ≠ .ok v := by
    intro v hv
    by_cases he : directionFrame direction ∈ received d.listening (rest.headD [])
    · have hack2 : nextAckNak d.listening (rest.tail.headD []) ≠ some "+" := by
        rcases hdir with h | h
        · exact absurd he h
        · exact h
      rw [move_confirm_echo_gen _ rest _ _ (by simpa using he)] at hv
      simp only [afterConfirm_listening] at hv
      split at hv
      · rename_i t ht
        split_ifs at hv with h1 h2
        · exact hack2 (by rw [ht, h1])
      · cases hv
    · rw [move_confirm_no_echo _ rest _ _ (by simpa using he)] at hv
      cases hv
  revert hw hk hnot
  generalize move_confirm (afterConfirm d (speedFrame speed) b1 b2) rest
    (directionFrame direction) "" = o
  intro hw hk hnot
  rcases o with ⟨d', env', e | v⟩
  · obtain ⟨what, hwhat⟩ := hk e rfl
    subst hwhat
    exact ⟨⟨what, rfl⟩, by simpa using hw⟩
  · exact absurd rfl (hnot v)

/-- C14, instance: the direction frame is echoed and then refused with "-". -/
theorem move_no_rollback_witness :
    (move { Driver.init with listening := true, connected_ := true }
      [["!A05\r"], ["+"], ["!b0A\r"], ["-"]] 5 (-10)).driver.written
      = [] ++ [speedFrame 5, directionFrame (-10)] :=
  (move_no_rollback { Driver.init with listening := true, connected_ := true } 5 (-10)
    ["!A05\r"] ["+"] [["!b0A\r"], ["-"]] (by decide) (by decide) (by decide)
    (Or.inr (by decide))).2

/-! ## C15: orphaned encoder tokens -/

/-- C15 (as stated, refuted): the first query is answered with two encoder tokens, "7F"
and "1"; nothing is discarded before the second query, so the surplus token "1", which
arrived before the second query was written, is decoded as `encoder2` (the answer "2" to
the second query is not), and no warning is given. -/
theorem queryEncoders_surplus_token :
    (queryEncoders { Driver.init with listening := true }
      [["?q0\r"], ["7F", "1"], ["?q1\r"], ["2"]] 0 0 false).result = .ok () ∧
    (queryEncoders { Driver.init with listening := true }
      [["?q0\r"], ["7F", "1"], ["?q1\r"], ["2"]] 0 0 false).encoder1 = 127 ∧
    (queryEncoders { Driver.init with listening := true }
      [["?q0\r"], ["7F", "1"], ["?q1\r"], ["2"]] 0 0 false).encoder2 = 1 ∧
    queryEncoder_parse "1" = .ok 1 ∧
    queryEncoder_parse "2" = .ok 2 ∧
    (queryEncoders { Driver.init with listening := true }
      [["?q0\r"], ["7F", "1"], ["?q1\r"], ["2"]] 0 0 false).driver.warns = [] ∧
    (queryEncoders { Driver.init with listening := true }
      [["?q0\r"], ["7F", "1"], ["?q1\r"], ["2"]] 0 0 false).driver.written
      = ["?q0\r", "?q1\r"] := by
  decide

/-- C15 (amended): once per call, before the first query is issued, the unconsumed tokens
of the encoder buffer are discarded, with an "orphaned encoder messages" warning when
there are some, so that `encoder1` is decoded from a token that arrived after the first
query was written (a response of at most 8 characters, the longest the decoding
accepts); nothing is discarded between the two queries: a surplus encoder token of at
most 8 characters that came with the first response is what the second query, once
echoed, decodes as `encoder2`. -/
theorem queryEncoders_discards_once (d : Driver) (e1 e2 : Int) (relative : Bool)
    (be1 ba1 : List String) (env : Env) (r1 : String) (surplus : List String)
    (hecho : firstQuery relative ∈ received d.listening be1)
    (hbe : (received d.listening be1).filter isAnEncoderMsg = [])
    (hba : (received d.listening ba1).filter isAnEncoderMsg = r1 :: surplus)
    (hlen : r1.length ≤ 8) :
    (queryEncoders d (be1 :: ba1 :: env) e1 e2 relative).driver.warns
      = d.warns ++ (if d.encoders_filt = [] then [] else
          ["There were " ++ toString d.encoders_filt.length
            ++ " orphaned encoder messages in the filter..."]) ∧
    queryEncoder_parse r1
      = .ok (queryEncoders d (be1 :: ba1 :: env) e1 e2 relative).encoder1 ∧
    (∀ (s : String) (more be2 : List String) (rest : Env),
      surplus = s :: more → env = be2 :: rest →
      secondQuery relative ∈ received d.listening be2 →
      s.length ≤ 8 →
      (queryEncoders d (be1 :: ba1 :: env) e1 e2 relative).result = .ok () ∧
      queryEncoder_parse s
        = .ok (queryEncoders d (be1 :: ba1 :: env) e1 e2 relative).encoder2 ∧
      (queryEncoders d (be1 :: ba1 :: env) e1 e2 relative).env = rest) := by
  have P1 := queryEncoder_parse_of_le r1 hlen
  refine ⟨?_, ?_, ?_⟩
  · rw [queryEncoders_warns, queryEncoders_begin_warns]
  · rw [queryEncoders_eq]
    have A := queryEncoder__answered_gen (queryEncoders_begin d) (firstQuery relative) be1 ba1
      env r1 surplus (by simpa using hecho) (by simp) (by simpa using hbe)
      (by simpa using hba)
    revert A
    generalize queryEncoder_ (queryEncoders_begin d) (be1 :: ba1 :: env)
      (firstQuery relative) = o1
    rcases o1 with ⟨d1, env1, res1⟩
    rintro ⟨hres1, -, -⟩
    simp only at hres1
    rw [P1] at hres1
    subst hres1
    dsimp only
    generalize queryEncoder_ d1 env1 (secondQuery relative) = o2
    rcases o2 with ⟨d2, env2, e | v2⟩ <;> exact P1
  · intro s more be2 rest hsur henv hecho2 hslen
    have P2 := queryEncoder_parse_of_le s hslen
    subst hsur henv
    have hs : s ≠ "" := by
      have hmem : s ∈ (received d.listening ba1).filter isAnEncoderMsg := by
        rw [hba]; simp
      exact received_ne_empty _ _ s (List.mem_filter.mp hmem).1
    rw [queryEncoders_eq]
    have A := queryEncoder__answered_gen (queryEncoders_begin d) (firstQuery relative) be1 ba1
      (be2 :: rest) r1 (s :: more) (by simpa using hecho) (by simp) (by simpa using hbe)
      (by simpa using hba)
    have F := queryEncoder__frame (queryEncoders_begin d) (be1 :: ba1 :: be2 :: rest)
      (firstQuery relative)
    revert A F
    generalize queryEncoder_ (queryEncoders_begin d) (be1 :: ba1 :: be2 :: rest)
      (firstQuery relative) = o1
    rcases o1 with ⟨d1, env1, res1⟩
    rintro ⟨hres1, henv1, hbuf1⟩ ⟨-, hl1, -, -, -⟩
    simp only at hres1 henv1 hbuf1 hl1
    rw [P1] at hres1
    subst hres1 henv1
    simp only [queryEncoders_begin_listening] at hl1
    dsimp only
    have B := queryEncoder__buffered d1 (secondQuery relative) be2 rest s
      (more ++ (received d1.listening be2).filter isAnEncoderMsg)
      (by rw [hl1]; exact hecho2) (by rw [hbuf1]; rfl) hs
    revert B
    generalize queryEncoder_ d1 (be2 :: rest) (secondQuery relative) = o2
    rcases o2 with ⟨d2, env2, res2⟩
    rintro ⟨hres2, henv2, -⟩
    simp only at hres2 henv2
    rw [P2] at hres2
    subst hres2 henv2
    exact ⟨rfl, P2, rfl⟩

/-- C15 (amended), instance: one stale token in the buffer when the call starts. -/
theorem queryEncoders_discards_once_witness :
    (queryEncoders { Driver.init with listening := true, encoders_filt := ["FF"] }
      [["?q0\r"], ["7F", "1"], ["?q1\r"], ["2"]] 0 0 false).driver.warns
      = ["There were 1 orphaned encoder messages in the filter..."] ∧
    queryEncoder_parse "7F"
      = .ok (queryEncoders { Driver.init with listening := true, encoders_filt := ["FF"] }
          [["?q0\r"], ["7F", "1"], ["?q1\r"], ["2"]] 0 0 false).encoder1 ∧
    queryEncoder_parse "1"
      = .ok (queryEncoders { Driver.init with listening := true, encoders_filt := ["FF"] }
          [["?q0\r"], ["7F", "1"], ["?q1\r"], ["2"]] 0 0 false).encoder2 :=
  ⟨(queryEncoders_discards_once
      { Driver.init with listening := true, encoders_filt := ["FF"] } 0 0 false
      ["?q0\r"] ["7F", "1"] [["?q1\r"], ["2"]] "7F" ["1"]
      (by decide) (by decide) (by decide) (by decide)).1,
    (queryEncoders_discards_once
      { Driver.init with listening := true, encoders_filt := ["FF"] } 0 0 false
      ["?q0\r"] ["7F", "1"] [["?q1\r"], ["2"]] "7F" ["1"]
      (by decide) (by decide) (by decide) (by decide)).2.1,
    ((queryEncoders_discards_once
      { Driver.init with listening := true, encoders_filt := ["FF"] } 0 0 false
      ["?q0\r"] ["7F", "1"] [["?q1\r"], ["2"]] "7F" ["1"]
      (by decide) (by decide) (by decide) (by decide)).2.2
      "1" [] ["?q1\r"] [["2"]] rfl rfl (by decide) (by decide)).2.1⟩

/-! ## C16: failure of `queryEncoders` -/

/-- C16 (as stated, refuted): the first query is answered with "7F" and the second is not
echoed; the call fails with a CommandError, yet the caller's `encoder1`, 5 before the
call, holds 127 after it (`encoder2` keeps its 6).  And a failure need not be a
CommandError: a first response of 9 characters, "123456789", makes the call fail with
`std::length_error` after the first query alone was written. -/
theorem queryEncoders_partial_result :
    (queryEncoders { Driver.init with listening := true }
      [["?q0\r"], ["7F"], []] 5 6 false).result
      = .error (.CommandFailedException "failed to receive an echo") ∧
    (queryEncoders { Driver.init with listening := true }
      [["?q0\r"], ["7F"], []] 5 6 false).encoder1 = 127 ∧
    (queryEncoders { Driver.init with listening := true }
      [["?q0\r"], ["7F"], []] 5 6 false).encoder1 ≠ 5 ∧
    (queryEncoders { Driver.init with listening := true }
      [["?q0\r"], ["7F"], []] 5 6 false).encoder2 = 6 ∧
    (queryEncoders { Driver.init with listening := true }
      [["?q0\r"], ["123456789"]] 5 6 false).result = .error .length_error ∧
    (queryEncoders { Driver.init with listening := true }
      [["?q0\r"], ["123456789"]] 5 6 false).driver.written = ["?q0\r"] ∧
    (queryEncoders { Driver.init with listening := true }
      [["?q0\r"], ["123456789"]] 5 6 false).encoder1 = 5 := by
  decide

/-- C16 (amended): whenever `queryEncoders` fails it fails with a CommandError or with the
`std::length_error` of the decoding, and with a CommandError whenever the token source
holds no encoder token of more than 8 characters; it leaves the caller's `encoder2`
unchanged; either the first query failed, and then the second query was never written and
`encoder1` is unchanged too, or the first query succeeded and the second failed, and then
both queries were written and `encoder1` holds the value decoded for the first query. -/
theorem queryEncoders_failure (d : Driver) (env : Env) (e1 e2 : Int) (relative : Bool)
    (hfail : (queryEncoders d env e1 e2 relative).result ≠ .ok ()) :
    ((∃ what, (queryEncoders d env e1 e2 relative).result
        = .error (.CommandFailedException what)) ∨
      (queryEncoders d env e1 e2 relative).result = .error .length_error) ∧
    ((∀ b ∈ env, ∀ t ∈ b, isAnEncoderMsg t = true → t.length ≤ 8) →
      ∃ what, (queryEncoders d env e1 e2 relative).result
        = .error (.CommandFailedException what)) ∧
    (queryEncoders d env e1 e2 relative).encoder2 = e2 ∧
    (((∃ e, (queryEncoder_ (queryEncoders_begin d) env (firstQuery relative)).result
          = .error e ∧ (queryEncoders d env e1 e2 relative).result = .error e) ∧
      (queryEncoders d env e1 e2 relative).driver.written
        = d.written ++ [firstQuery relative] ∧
      (queryEncoders d env e1 e2 relative).encoder1 = e1) ∨
     ((queryEncoder_ (queryEncoders_begin d) env (firstQuery relative)).result
        = .ok (queryEncoders d env e1 e2 relative).encoder1 ∧
      (queryEncoders d env e1 e2 relative).driver.written
        = d.written ++ [firstQuery relative, secondQuery relative])) := by
  rw [queryEncoders_eq] at hfail ⊢
  have F := queryEncoder__frame (queryEncoders_begin d) env (firstQuery relative)
  have K := queryEncoder__error_kind (queryEncoders_begin d) env (firstQuery relative)
  have S := queryEncoder__short (queryEncoders_begin d) env (firstQuery relative)
    (by simp)
  revert F K S hfail
  generalize queryEncoder_ (queryEncoders_begin d) env (firstQuery relative) = o1
  rcases o1 with ⟨d1, env1, e | v1⟩
  · rintro hfail ⟨hw, -, -, -, -⟩ K S
    refine ⟨?_, ?_, rfl, Or.inl ⟨⟨_, rfl, rfl⟩, ?_, rfl⟩⟩
    · rcases K e rfl with ⟨what, rfl⟩ | rfl
      · exact Or.inl ⟨what, rfl⟩
      · exact Or.inr rfl
    · intro henv
      rcases K e rfl with ⟨what, rfl⟩ | rfl
      · exact ⟨what, rfl⟩
      · exact absurd rfl (S henv).1
    · simpa using hw
  · rintro hfail ⟨hw, -, -, -, -⟩ - S
    dsimp only at hfail S ⊢
    have G := queryEncoder__frame d1 env1 (secondQuery relative)
    have L := queryEncoder__error_kind d1 env1 (secondQuery relative)
    have T := fun henv => queryEncoder__short d1 env1 (secondQuery relative)
      (S henv).2.1 (S henv).2.2
    revert G L T hfail
    generalize queryEncoder_ d1 env1 (secondQuery relative) = o2
    rcases o2 with ⟨d2, env2, e | v2⟩
    · rintro hfail ⟨hw2, -, -, -, -⟩ L T
      refine ⟨?_, ?_, rfl, Or.inr ⟨rfl, ?_⟩⟩
      · rcases L e rfl with ⟨what, rfl⟩ | rfl
        · exact Or.inl ⟨what, rfl⟩
        · exact Or.inr rfl
      · intro henv
        rcases L e rfl with ⟨what, rfl⟩ | rfl
        · exact ⟨what, rfl⟩
        · exact absurd rfl (T henv).1
      · have hw' : d1.written = d.written ++ [firstQuery relative] := by simpa using hw
        show d2.written = _
        rw [hw2, hw']; simp
    · rintro hfail - - -
      exact absurd rfl hfail

/-- C16 (amended), instance: the second query is not echoed; no token has more than 8
characters, so the failure is a CommandError. -/
theorem queryEncoders_failure_witness :
    (∃ what, (queryEncoders { Driver.init with listening := true }
      [["?q0\r"], ["7F"], []] 5 6 false).result
        = .error (.CommandFailedException what)) ∧
    (queryEncoders { Driver.init with listening := true }
      [["?q0\r"], ["7F"], []] 5 6 false).encoder2 = 6 :=
  ⟨(queryEncoders_failure { Driver.init with listening := true }
      [["?q0\r"], ["7F"], []] 5 6 false (by decide)).2.1 (by decide),
    (queryEncoders_failure { Driver.init with listening := true }
      [["?q0\r"], ["7F"], []] 5 6 false (by decide)).2.2.1⟩

/-! ## C17: the encoder-token classifier -/

/-- C17 (as stated, refuted): `isAnEncoderMsg` returns true, not false, for the empty
token: its first-character text `substr(0,1)` is then empty, and every text contains the
empty text. -/
theorem isAnEncoderMsg_empty :
    isAnEncoderMsg "" = true ∧
    substr01 "" = "" ∧
    contains "0123456789abcdefABCDEF" "" = true :=
  ⟨by decide, by decide, by decide⟩

/-- C17 (amended): for every non-empty token `isAnEncoderMsg` returns true if and only if
the first character of the token is a hexadecimal digit (0-9, a-f, A-F); the tokens the
listener hands to the encoder subscription are non-empty, so for each of them the
classifier is this first-character test. -/
theorem isAnEncoderMsg_first_char (token : String) (hne : token ≠ "") :
    (isAnEncoderMsg token = true ↔
      ∃ a, token.data.head? = some a ∧ a ∈ "0123456789abcdefABCDEF".data) ∧
    (∀ (listening : Bool) (batch : List String), token ∈ received listening batch →
      (token ∈ (received listening batch).filter isAnEncoderMsg ↔
        ∃ a, token.data.head? = some a ∧ a ∈ "0123456789abcdefABCDEF".data)) ∧
    (∀ (listening : Bool) (batch : List String), ∀ t ∈ received listening batch, t ≠ "") := by
  have key : isAnEncoderMsg token = true ↔
      ∃ a, token.data.head? = some a ∧ a ∈ "0123456789abcdefABCDEF".data := by
    obtain ⟨cs⟩ := token
    cases cs with
    | nil => exact absurd rfl hne
    | cons a cs =>
      rw [isAnEncoderMsg_cons]
      constructor
      · intro h
        exact ⟨a, rfl, h⟩
      · rintro ⟨b, hb, hmem⟩
        simp only [List.head?_cons, Option.some.injEq] at hb
        subst hb
        exact hmem
  refine ⟨key, ?_, fun listening batch t ht => received_ne_empty listening batch t ht⟩
  intro listening batch hmem
  rw [List.mem_filter, ← key]
  exact ⟨fun h => h.2, fun h => ⟨hmem, h⟩⟩

/-- C17 (amended), instance: the tokens "7F" and "OK". -/
theorem isAnEncoderMsg_first_char_witness :
    (isAnEncoderMsg "7F" = true ↔
      ∃ a, "7F".data.head? = some a ∧ a ∈ "0123456789abcdefABCDEF".data) ∧
    isAnEncoderMsg "7F" = true ∧
    (isAnEncoderMsg "OK" = true ↔
      ∃ a, "OK".data.head? = some a ∧ a ∈ "0123456789abcdefABCDEF".data) ∧
    isAnEncoderMsg "OK" = false :=
  ⟨(isAnEncoderMsg_first_char "7F" (by decide)).1, by decide,
    (isAnEncoderMsg_first_char "OK" (by decide)).1, by decide⟩

/-! ## C18: reconnecting -/

/-- C18 (code at the failing input): a driver is connected and synchronized, then
disconnected; `disconnect` leaves the synchronized flag set, so the next connect returns
normally without writing the reset sequence or any probe, whatever the token source
delivers, and the state is Synchronized at once. -/
theorem connect_after_disconnect_skips_handshake :
    (connect Driver.init [[":R/C"], ["OK"]] "/dev/ttyS0").driver.state
      = State.Synchronized ∧
    (disconnect (connect Driver.init [[":R/C"], ["OK"]] "/dev/ttyS0").driver).synched_
      = true ∧
    (connect (disconnect (connect Driver.init [[":R/C"], ["OK"]] "/dev/ttyS0").driver)
      [[":R/C"], ["OK"]] "/dev/ttyS0").result = .ok () ∧
    (connect (disconnect (connect Driver.init [[":R/C"], ["OK"]] "/dev/ttyS0").driver)
      [[":R/C"], ["OK"]] "/dev/ttyS0").driver.written
      = (connect Driver.init [[":R/C"], ["OK"]] "/dev/ttyS0").driver.written ∧
    (connect (disconnect (connect Driver.init [[":R/C"], ["OK"]] "/dev/ttyS0").driver)
      [[":R/C"], ["OK"]] "/dev/ttyS0").driver.written = ["%rrrrrr\r", "\r"] ∧
    (connect (disconnect (connect Driver.init [[":R/C"], ["OK"]] "/dev/ttyS0").driver)
      [[":R/C"], ["OK"]] "/dev/ttyS0").driver.state = State.Synchronized ∧
    (connect (disconnect (connect Driver.init [[":R/C"], ["OK"]] "/dev/ttyS0").driver)
      [] "/dev/ttyS0").driver.state = State.Synchronized := by
  decide

/-! ## C19: a failed handshake leaves the driver Connected -/

/-- C19: if `connect` gets past its guards (so that the transport is opened) and does not
return normally, it raises a SynchronizationError and leaves the driver Connected
(connected, not synchronized); a second connect then fails with
ConnectionError("already connected"), which it no longer does once `disconnect` has been
called. -/
theorem connect_handshake_failed (d : Driver) (env : Env) (port : String)
    (hc : d.connected_ = false) (hp : (if port ≠ "" then port else d.port_) ≠ "")
    (hfail : (connect d env port).result ≠ .ok ()) :
    (∃ what, (connect d env port).result = .error (.SynchronizationException what)) ∧
    (connect d env port).driver.connected_ = true ∧
    (connect d env port).driver.synched_ = false ∧
    (connect d env port).driver.state = State.Connected ∧
    (∀ (env' : Env) (port' : String),
      (connect (connect d env port).driver env' port').result
        = .error (.ConnectionException "already connected")) ∧
    (∀ (env' : Env) (port' : String),
      (connect (disconnect (connect d env port).driver) env' port').result
        ≠ .error (.ConnectionException "already connected")) := by
  rw [connect_eq_sync d env port hc hp] at hfail ⊢
  obtain ⟨h1, h2⟩ := sync__outcome (connect_opened d port) env
  have hcon : (sync_ (connect_opened d port) env).driver.connected_ = true := by
    rw [h1]; rfl
  rcases h2 with h2 | ⟨hex, hsy⟩
  · exact absurd h2 hfail
  · refine ⟨hex, hcon, hsy, ?_, ?_, ?_⟩
    · simp [Driver.state, hcon, hsy]
    · intro env' port'
      simp [connect, hcon]
    · intro env' port'
      generalize (sync_ (connect_opened d port) env).driver = d1
      have hdc : (disconnect d1).connected_ = false := by
        unfold disconnect
        dsimp only
        split <;> rfl
      by_cases hp' : (if port' ≠ "" then port' else (disconnect d1).port_) = ""
      · have hport : port' = "" := by
          by_contra hne
          rw [if_pos hne] at hp'
          exact hne hp'
        subst hport
        have hstored : (disconnect d1).port_ = "" := by simpa using hp'
        have he : ("" : String).isEmpty = true := by decide
        simp [connect, hdc, he, hstored]
      · rw [connect_eq_sync _ env' port' hdc hp']
        obtain ⟨-, h4⟩ := sync__outcome (connect_opened (disconnect d1) port') env'
        rcases h4 with h4 | ⟨⟨what, h4⟩, -⟩
        · rw [h4]; simp
        · rw [h4]; simp

/-- C19, instance: a fresh driver and a silent token source. -/
theorem connect_handshake_failed_witness :
    (connect Driver.init [] "/dev/ttyS0").driver.state = State.Connected ∧
    (connect (connect Driver.init [] "/dev/ttyS0").driver [[":R/C"], ["OK"]]
      "/dev/ttyS0").result = .error (.ConnectionException "already connected") :=
  ⟨(connect_handshake_failed Driver.init [] "/dev/ttyS0" (by decide) (by decide)
      (by decide)).2.2.2.1,
    (connect_handshake_failed Driver.init [] "/dev/ttyS0" (by decide) (by decide)
      (by decide)).2.2.2.2.1 [[":R/C"], ["OK"]] "/dev/ttyS0"⟩

/-! ## C20: the frame buffer -/

/-- C20 (code at the failing inputs): for every speed and direction the frame `move`
formats has 5 characters, so that with its terminating NUL it takes 6 and does not fit in
the 5 characters allocated for it. -/
theorem move_frame_overflows_buffer (speed direction : ℚ) :
    (speedFrame speed).length = 5 ∧
    (directionFrame direction).length = 5 ∧
    ¬ ((speedFrame speed).length + 1 ≤ serial_buffer_size) ∧
    ¬ ((directionFrame direction).length + 1 ≤ serial_buffer_size) ∧
    speedFrame 0 = "!A00\r" := by
  have hs : (speedFrame speed).length = 5 := by
    have hlt := toUnsignedChar_fabs_lt speed
    unfold speedFrame
    simp only [sprintf_02X_eq_hex2 _ (Nat.le_of_lt_succ hlt)]
    split_ifs <;> simp [String.length_append, hex2_length] <;> rfl
  have hd : (directionFrame direction).length = 5 := by
    have hlt := toUnsignedChar_fabs_lt direction
    unfold directionFrame
    simp only [sprintf_02X_eq_hex2 _ (Nat.le_of_lt_succ hlt)]
    split_ifs <;> simp [String.length_append, hex2_length] <;> rfl
  refine ⟨hs, hd, ?_, ?_, by decide⟩
  · rw [hs]; decide
  · rw [hd]; decide

end AX2550
